import Mathlib

/-!
# go-chapa-sdk: request validation and the validate / call / decode pattern

A shallow embedding of `data.go` (request and response records, the three
`Validate` methods) and `chapa.go` (the client and its six operations).

Go values are embedded as follows.

* `string` is `String`; `error` is `Option GoError` (`none` is `nil`);
  a returned pointer `*T` is `Option T` (`none` is `nil`).
* a slice `[]T` is `Option (List T)`: `none` is the nil slice, `some []` is an
  empty slice that is not nil.
* `float64` is its IEEE-754 binary64 bit pattern (`Float64`).
* `decimal.Decimal` is the pair of its two fields (`Decimal`).
* library calls whose result the client only passes on (`json.Marshal`,
  `json.Unmarshal`, `http.NewRequest`, `(*http.Client).Do`, `io.ReadAll`) are
  fields of the record `Lib`; every theorem about the operations holds for all
  of their behaviours.
* the rules of `github.com/go-ozzo/ozzo-validation/v4` that the `Validate`
  methods call (`Required`, `NilOrNotEmpty`, `ValidateStruct`) are embedded as
  definitions in the namespace `validation`.
-/

namespace Chapa

/-! ## Errors -/

/-- A Go `error` value. `validation errs` is a `validation.Errors` map (field
name to message, in the order the fields were checked), `errorf text` is the
value built by `fmt.Errorf`, `external text` is an error made by the standard
library (net/http, encoding/json, io). -/
inductive GoError where
  | validation (errs : List (String × String))
  | errorf (text : String)
  | external (text : String)
  deriving DecidableEq, Repr

/-- The order of `sort.Strings`: lexicographic on the characters of the keys. -/
def keyLE (a b : String) : Bool := decide (a.data ≤ b.data)

/-- Insert a key/message pair into a list sorted by key. -/
def insertByKey (kv : String × String) : List (String × String) → List (String × String)
  | [] => [kv]
  | x :: xs => if keyLE kv.1 x.1 then kv :: x :: xs else x :: insertByKey kv xs

/-- The entries of a `validation.Errors` map in the order of their keys. -/
def sortByKey : List (String × String) → List (String × String)
  | [] => []
  | x :: xs => insertByKey x (sortByKey xs)

/-- Render sorted entries as `key: message` joined by `; `. -/
def joinEntries : List (String × String) → String
  | [] => ""
  | [kv] => kv.1 ++ ": " ++ kv.2
  | kv :: rest => kv.1 ++ ": " ++ kv.2 ++ "; " ++ joinEntries rest

/-- The method `Errors.Error` of ozzo-validation: empty text for an empty map,
otherwise the entries sorted by key, joined by `; ` and closed by a full stop. -/
def errorsText (errs : List (String × String)) : String :=
  if errs.isEmpty then "" else joinEntries (sortByKey errs) ++ "."

/-- The method `Error()` of an error value. -/
def GoError.Error : GoError → String
  | .validation errs => errorsText errs
  | .errorf text => text
  | .external text => text

/-! ## Scalars -/

/-- An IEEE-754 binary64 value, given by its three bit fields. -/
structure Float64 where
  sign : Bool
  exponent : Fin 2048
  mantissa : Fin (2 ^ 52)
  deriving DecidableEq

/-- The Go comparison `f == 0`: true for both signed zeros, false otherwise
(in particular false for NaN). -/
def Float64.isZero (f : Float64) : Bool :=
  decide (f.exponent = 0) && decide (f.mantissa = 0)

/-- The zero value of `float64` (positive zero). -/
def Float64.zero : Float64 := { sign := false, exponent := 0, mantissa := 0 }

/-- The value 1.0. -/
def Float64.one : Float64 := { sign := false, exponent := 1023, mantissa := 0 }

instance : Inhabited Float64 := ⟨Float64.zero⟩

/-- The struct `decimal.Decimal` of shopspring/decimal: `value` is the
`*big.Int` field (`none` is the nil pointer of the zero value), `exp` the
`int32` exponent; the number denoted is `value * 10 ^ exp`. -/
structure Decimal where
  value : Option Int
  exp : Int
  deriving DecidableEq

/-- The zero value of `decimal.Decimal`. -/
def Decimal.zero : Decimal := { value := none, exp := 0 }

instance : Inhabited Decimal := ⟨Decimal.zero⟩

/-- Decimal digits of a natural number, least significant first, bounded by
`fuel` digits. -/
def digitsRev : Nat → Nat → List Char
  | 0, _ => []
  | fuel + 1, n =>
    if n < 10 then [Char.ofNat (48 + n)]
    else Char.ofNat (48 + n % 10) :: digitsRev fuel (n / 10)

/-- The text of `(*big.Int).String` for a non-negative value. -/
def natText (n : Nat) : List Char :=
  if n = 0 then [Char.ofNat 48] else (digitsRev (n + 1) n).reverse

/-- The text of `(*big.Int).String` and of `strconv.FormatInt` in base 10. -/
def intText (n : Int) : List Char :=
  if n < 0 then Char.ofNat 45 :: natText n.natAbs else natText n.natAbs

/-- Drop the trailing `0` characters of a fractional part. -/
def trimZeros (frac : List Char) : List Char :=
  (frac.reverse.dropWhile (fun c => c == Char.ofNat 48)).reverse

/-- The method `Decimal.String` (`d.string(true)`): the plain decimal text of
the number with trailing fractional zeros removed. -/
def Decimal.text (d : Decimal) : String :=
  let v : Int := d.value.getD 0
  if 0 ≤ d.exp then
    String.mk (intText (v * 10 ^ d.exp.toNat))
  else
    let str := natText v.natAbs
    let e := (-d.exp).toNat
    let intPart := if e < str.length then str.take (str.length - e) else [Char.ofNat 48]
    let fractionalPart :=
      if e < str.length then str.drop (str.length - e)
      else List.replicate (e - str.length) (Char.ofNat 48) ++ str
    let frac := trimZeros fractionalPart
    let number := if 0 < frac.length then intPart ++ [Char.ofNat 46] ++ frac else intPart
    String.mk (if v < 0 then Char.ofNat 45 :: number else number)

/-- The method `Decimal.Value` (the `driver.Valuer` implementation): the text
of the number, never an error. -/
def Decimal.Value (d : Decimal) : String := d.text

/-- The Go type `int64` (and `int` on 64-bit platforms). -/
abbrev Int64 : Type := { n : Int // -(2 : Int) ^ 63 ≤ n ∧ n < (2 : Int) ^ 63 }

instance : Inhabited Int64 := ⟨⟨0, by norm_num⟩⟩

/-! ## ozzo-validation: the rules called by the `Validate` methods -/

namespace validation

/-- The dynamic values that the `Validate` methods of this package hand to the
validation rules, by reflect kind: a string, a float64, a slice (nil, or its
length) and the struct `decimal.Decimal`, which implements `driver.Valuer`;
`invalid` is the untyped nil that `Indirect` returns for a nil value. -/
inductive Value where
  | invalid
  | string (s : String)
  | float64 (f : Float64)
  | slice (len : Option Nat)
  | decimal (d : Decimal)
  deriving DecidableEq

/-- The function `Indirect` of util.go: a nil slice gives `(nil, true)`; a
value implementing `driver.Valuer` is replaced by what its `Value()` returns
(for a decimal: its text, a string); anything else is returned as it is. -/
def Indirect : Value → Value × Bool
  | .invalid => (.invalid, true)
  | .slice none => (.invalid, true)
  | .decimal d => (.string d.Value, false)
  | v => (v, false)

/-- The function `IsEmpty` of util.go: a string or slice is empty when its
length is zero, a float when it `== 0`, an invalid value always; a struct is
empty only when it is a zero `time.Time`, which a decimal is not. -/
def IsEmpty : Value → Bool
  | .invalid => true
  | .string s => s.utf8ByteSize == 0
  | .float64 f => f.isZero
  | .slice none => true
  | .slice (some n) => n == 0
  | .decimal _ => false

/-- The struct `RequiredRule`: `skipNil` separates `NilOrNotEmpty` from
`Required`, `err` is the message installed by `.Error(...)`. -/
structure RequiredRule where
  condition : Bool
  skipNil : Bool
  err : Option String
  deriving DecidableEq

/-- The rule `validation.Required`. -/
def Required : RequiredRule := { condition := true, skipNil := false, err := none }

/-- The rule `validation.NilOrNotEmpty`. -/
def NilOrNotEmpty : RequiredRule := { condition := true, skipNil := true, err := none }

/-- The method `RequiredRule.Error`: the same rule with a custom message. -/
def RequiredRule.Error (r : RequiredRule) (message : String) : RequiredRule :=
  { r with err := some message }

/-- The method `RequiredRule.Validate`: the message of the error it returns,
`none` when the value passes. -/
def RequiredRule.Validate (r : RequiredRule) (value : Value) : Option String :=
  if r.condition then
    let (value, isNil) := Indirect value
    if (r.skipNil && !isNil && IsEmpty value) || (!r.skipNil && (isNil || IsEmpty value)) then
      match r.err with
      | some message => some message
      | none => some "cannot be blank"
    else none
  else none

/-- The function `validation.Validate` on the values of this package: the
first rule that fails gives the error (none of the values is `Validatable`,
so nothing is checked after the rules). -/
def Validate (value : Value) : List RequiredRule → Option String
  | [] => none
  | rule :: rules =>
    match rule.Validate value with
    | some e => some e
    | none => Validate value rules

/-- The result of `validation.Field(&field, rules...)`, with the key under
which `ValidateStruct` files an error of the field: the name in its `json` tag. -/
structure FieldRules where
  name : String
  value : Value
  rules : List RequiredRule

/-- The entries of the `Errors` map that `ValidateStruct` fills: one per field
whose rules fail, keyed by the field name. -/
def collect : List FieldRules → List (String × String)
  | [] => []
  | fr :: rest =>
    match Validate fr.value fr.rules with
    | some e => (fr.name, e) :: collect rest
    | none => collect rest

/-- The function `validation.ValidateStruct`: `nil` when no field fails,
otherwise the `Errors` map. -/
def ValidateStruct (fields : List FieldRules) : Option GoError :=
  let errs := collect fields
  if errs.isEmpty then none else some (GoError.validation errs)

end validation

/-! ## data.go: requests -/

/-- The struct `PaymentRequest`; `κ` is the type of the values of the
free-form `Customization` map (`none` is the nil map). -/
structure PaymentRequest (κ : Type) where
  Amount : Decimal
  Currency : String
  Email : String
  FirstName : String
  LastName : String
  Phone : String
  CallbackURL : String
  TransactionRef : String
  Customization : Option (List (String × κ))

/-- The struct `BankTransfer`. -/
structure BankTransfer where
  AccountName : String
  AccountNumber : String
  Amount : Float64
  Currency : String
  Reference : String
  BankCode : String
  deriving DecidableEq

/-- The struct `BulkData`. -/
structure BulkData where
  AccountName : String
  AccountNumber : String
  Amount : Int64
  Reference : String
  BankCode : String
  deriving DecidableEq

/-- The struct `BulkTransferRequest`; `BulkData` is a slice. -/
structure BulkTransferRequest where
  Title : String
  Currency : String
  BulkData : Option (List BulkData)
  deriving DecidableEq

/-- The method `PaymentRequest.Validate`. -/
def PaymentRequest.Validate {κ : Type} (p : PaymentRequest κ) : Option GoError :=
  validation.ValidateStruct [
    { name := "tx_ref", value := .string p.TransactionRef,
      rules := [validation.Required.Error "transaction reference is required"] },
    { name := "currency", value := .string p.Currency,
      rules := [validation.Required.Error "currency is required"] },
    { name := "amount", value := .decimal p.Amount,
      rules := [validation.Required.Error "amount is required"] }]

/-- The method `BankTransfer.Validate`. -/
def BankTransfer.Validate (t : BankTransfer) : Option GoError :=
  validation.ValidateStruct [
    { name := "account_name", value := .string t.AccountName,
      rules := [validation.Required.Error "account name is required"] },
    { name := "account_number", value := .string t.AccountNumber,
      rules := [validation.Required.Error "account number is required"] },
    { name := "amount", value := .float64 t.Amount,
      rules := [validation.Required.Error "amount is required"] },
    { name := "currency", value := .string t.Currency,
      rules := [validation.Required.Error "currency is required"] },
    { name := "reference", value := .string t.Reference,
      rules := [validation.Required.Error "reference is required"] },
    { name := "bank_code", value := .string t.BankCode,
      rules := [validation.Required.Error "bank code is required"] }]

/-- The method `BulkTransferRequest.Validate`. -/
def BulkTransferRequest.Validate (t : BulkTransferRequest) : Option GoError :=
  validation.ValidateStruct [
    { name := "title", value := .string t.Title,
      rules := [validation.Required.Error "title of the bulk transfer is required"] },
    { name := "currency", value := .string t.Currency,
      rules := [validation.Required.Error "currency is required"] },
    { name := "bulk_data", value := .slice (t.BulkData.map List.length),
      rules := [validation.NilOrNotEmpty.Error "at least one account is required"] }]

/-! ## data.go: responses -/

/-- The anonymous struct of the field `Data` of `PaymentResponse`. -/
structure PaymentResponseData where
  CheckoutURL : String
  deriving DecidableEq

/-- The struct `PaymentResponse`. -/
structure PaymentResponse where
  Message : String
  Status : String
  Data : PaymentResponseData
  deriving DecidableEq

/-- The anonymous struct of the field `Data` of `VerifyResponse`. -/
structure VerifyResponseData where
  Charge : Float64
  deriving DecidableEq

/-- The struct `VerifyResponse`. -/
structure VerifyResponse where
  Message : String
  Status : String
  Data : VerifyResponseData
  deriving DecidableEq

/-- The struct `BankTransferResponse`. -/
structure BankTransferResponse where
  Message : String
  Status : String
  Data : String
  deriving DecidableEq

/-- The struct `Customer`. -/
structure Customer where
  ID : Int64
  Email : String
  FirstName : String
  LastName : String
  Mobile : String
  deriving DecidableEq

/-- The struct `Transaction`; `Status` has the string type `TransactionStatus`,
and `Type_` is the field `Type`. -/
structure Transaction where
  Status : String
  RefID : String
  Type_ : String
  CreatedAt : String
  Currency : String
  Amount : Decimal
  Charge : String
  TransID : String
  PaymentMethod : String
  Customer : Customer
  deriving DecidableEq

/-- The struct `Pagination`. -/
structure Pagination where
  PerPage : Int64
  CurrentPage : Int64
  FirstPageURL : String
  NextPageURL : String
  PrevPageURL : String
  deriving DecidableEq

/-- The struct `TransactionList`. -/
structure TransactionList where
  Transactions : Option (List Transaction)
  Pagination : Pagination
  deriving DecidableEq

/-- The struct `TransactionsResponse`. -/
structure TransactionsResponse where
  Message : String
  Status : String
  Data : TransactionList
  deriving DecidableEq

/-- The struct `Bank`; `Currency` has the string type `Currency`. -/
structure Bank where
  ID : Int64
  Swift : String
  Name : String
  AcctLength : Int64
  CountryID : Int64
  CreatedAt : String
  UpdatedAt : String
  IsRTGS : Int64
  IsMobileMoney : Int64
  Currency : String
  deriving DecidableEq

/-- The struct `BanksResponse`. -/
structure BanksResponse where
  Message : String
  Data : Option (List Bank)
  deriving DecidableEq

/-- The struct `BulkTransferResponseData`. -/
structure BulkTransferResponseData where
  ID : Int64
  CreatedAt : String
  deriving DecidableEq

/-- The struct `BulkTransferResponse`. -/
structure BulkTransferResponse where
  Message : String
  Status : String
  Data : BulkTransferResponseData
  deriving DecidableEq

/-- The zero value `PaymentResponse{}`. -/
def PaymentResponse.zero : PaymentResponse :=
  { Message := "", Status := "", Data := { CheckoutURL := "" } }

/-- The zero value `VerifyResponse{}`. -/
def VerifyResponse.zero : VerifyResponse :=
  { Message := "", Status := "", Data := { Charge := Float64.zero } }

/-- The zero value `BankTransferResponse{}`. -/
def BankTransferResponse.zero : BankTransferResponse :=
  { Message := "", Status := "", Data := "" }

/-- The zero value `Customer{}`. -/
def Customer.zero : Customer :=
  { ID := default, Email := "", FirstName := "", LastName := "", Mobile := "" }

/-- The zero value `Transaction{}`. -/
def Transaction.zero : Transaction :=
  { Status := "", RefID := "", Type_ := "", CreatedAt := "", Currency := "",
    Amount := Decimal.zero, Charge := "", TransID := "", PaymentMethod := "",
    Customer := Customer.zero }

/-- The zero value `Pagination{}`. -/
def Pagination.zero : Pagination :=
  { PerPage := default, CurrentPage := default, FirstPageURL := "", NextPageURL := "",
    PrevPageURL := "" }

/-- The zero value `TransactionList{}`. -/
def TransactionList.zero : TransactionList :=
  { Transactions := none, Pagination := Pagination.zero }

/-- The zero value `TransactionsResponse{}`. -/
def TransactionsResponse.zero : TransactionsResponse :=
  { Message := "", Status := "", Data := TransactionList.zero }

/-- The zero value `Bank{}`. -/
def Bank.zero : Bank :=
  { ID := default, Swift := "", Name := "", AcctLength := default, CountryID := default,
    CreatedAt := "", UpdatedAt := "", IsRTGS := default, IsMobileMoney := default,
    Currency := "" }

/-- The zero value `BanksResponse{}`. -/
def BanksResponse.zero : BanksResponse := { Message := "", Data := none }

/-- The zero value `BulkTransferResponseData{}`. -/
def BulkTransferResponseData.zero : BulkTransferResponseData :=
  { ID := default, CreatedAt := "" }

/-- The zero value `BulkTransferResponse{}`. -/
def BulkTransferResponse.zero : BulkTransferResponse :=
  { Message := "", Status := "", Data := BulkTransferResponseData.zero }

/-! ## net/http and the other library calls of chapa.go -/

/-- A byte slice. -/
abbrev Bytes : Type := List (Fin 256)

/-- The function `validHeaderFieldByte` of net/textproto: letters, digits and
the token punctuation of RFC 7230, by character code. -/
def validHeaderFieldByte (c : Char) : Bool :=
  let n := c.toNat
  (decide (48 ≤ n) && decide (n ≤ 57)) || (decide (65 ≤ n) && decide (n ≤ 90)) ||
  (decide (97 ≤ n) && decide (n ≤ 122)) ||
  [33, 35, 36, 37, 38, 39, 42, 43, 45, 46, 94, 95, 96, 124, 126].contains n

/-- The loop of `canonicalMIMEHeaderKey`: upper case for the first letter and
for a letter after a dash, lower case for the other letters. -/
def canonicalChars : Bool → List Char → List Char
  | _, [] => []
  | upper, c :: cs =>
    let n := c.toNat
    let c2 : Char :=
      if upper && decide (97 ≤ n) && decide (n ≤ 122) then Char.ofNat (n - 32)
      else if !upper && decide (65 ≤ n) && decide (n ≤ 90) then Char.ofNat (n + 32)
      else c
    c2 :: canonicalChars (c2.toNat == 45) cs

/-- The function `textproto.CanonicalMIMEHeaderKey`: a key with a byte that is
not a header field byte is returned unchanged. -/
def CanonicalMIMEHeaderKey (s : String) : String :=
  if s.data.all validHeaderFieldByte then String.mk (canonicalChars true s.data) else s

/-- The type `http.Header`: canonical key to values. -/
abbrev Header : Type := List (String × List String)

/-- The method `Header.Set`: the entry of the canonical key is replaced by the
single value. -/
def Header.Set (h : Header) (key value : String) : Header :=
  (CanonicalMIMEHeaderKey key, [value]) ::
    h.filter (fun e => e.1 != CanonicalMIMEHeaderKey key)

/-- The method `Header.Get`: the first value of the canonical key, or the
empty string. -/
def Header.Get (h : Header) (key : String) : String :=
  match h.find? (fun e => e.1 == CanonicalMIMEHeaderKey key) with
  | some (_, v :: _) => v
  | _ => ""

/-- The fields of `http.Request` that chapa.go sets. -/
structure Request where
  Method : String
  URL : String
  Body : Option Bytes
  Header : Header
  Close : Bool
  deriving DecidableEq

/-- The fields of `http.Response` that matter to a caller: the status code,
and `Body`, the result of `io.ReadAll(resp.Body)`. -/
structure Response where
  StatusCode : Int
  Body : Except GoError Bytes

/-- The type `time.Duration`: a count of nanoseconds in an int64. -/
structure Duration where
  nanoseconds : Int64
  deriving DecidableEq

/-- The fields of `http.Client` that `New` sets. -/
structure HttpClient where
  Timeout : Duration
  deriving DecidableEq

/-- The struct `chapa`. -/
structure chapa where
  apiKey : String
  client : HttpClient
  deriving DecidableEq

/-- The library calls of chapa.go whose results the client passes on:
`json.Marshal` on each request type, the failure of `http.NewRequest` for a
method and URL, `(*http.Client).Do`, and `json.Unmarshal` into each response
type. -/
structure Lib (κ : Type) where
  marshalPaymentRequest : PaymentRequest κ → Except GoError Bytes
  marshalBankTransfer : BankTransfer → Except GoError Bytes
  marshalBulkTransferRequest : BulkTransferRequest → Except GoError Bytes
  newRequestError : String → String → Option GoError
  Do : HttpClient → Request → Except GoError Response
  unmarshalPaymentResponse : Bytes → Except GoError PaymentResponse
  unmarshalVerifyResponse : Bytes → Except GoError VerifyResponse
  unmarshalBankTransferResponse : Bytes → Except GoError BankTransferResponse
  unmarshalTransactionsResponse : Bytes → Except GoError TransactionsResponse
  unmarshalBanksResponse : Bytes → Except GoError BanksResponse
  unmarshalBulkTransferResponse : Bytes → Except GoError BulkTransferResponse

/-- The function `http.NewRequest`: a request with the given method, URL and
body and an empty header, unless the method or the URL is rejected. -/
def NewRequest {κ : Type} (L : Lib κ) (method url : String) (body : Option Bytes) :
    Except GoError Request :=
  match L.newRequestError method url with
  | some e => .error e
  | none => .ok { Method := method, URL := url, Body := body, Header := [], Close := false }

/-- The constant `http.MethodPost`. -/
def MethodPost : String := "POST"

/-- The constant `http.MethodGet`. -/
def MethodGet : String := "GET"

/-! ## chapa.go -/

/-- The constant `acceptPaymentV1APIURL`. -/
def acceptPaymentV1APIURL : String := "https://api.chapa.co/v1/transaction/initialize"

/-- The constant `verifyPaymentV1APIURL` applied to a reference with `%v`. -/
def verifyPaymentV1APIURL (txnRef : String) : String :=
  "https://api.chapa.co/v1/transaction/verify/" ++ txnRef

/-- The constant `transferToBankV1APIURL`. -/
def transferToBankV1APIURL : String := "https://api.chapa.co/v1/transfers"

/-- The constant `transactionsV1APIURL`. -/
def transactionsV1APIURL : String := "https://api.chapa.co/v1/transactions"

/-- The constant `banksV1APIURL`. -/
def banksV1APIURL : String := "https://api.chapa.co/v1/banks"

/-- The constant `bulkTransferAPIURL`. -/
def bulkTransferAPIURL : String := "https://api.chapa.co/v1/bulk-transfers"

/-- A line written with `log.Printf`: the format and the error it prints. -/
structure LogLine where
  format : String
  err : GoError
  deriving DecidableEq

/-- What a call of an operation does: the returned pointer and error, the
requests handed to `c.client.Do` in order, the lines logged, and the client
struct after the call. -/
structure Outcome (ρ : Type) where
  resp : Option ρ
  err : Option GoError
  calls : List Request
  logs : List LogLine
  self : chapa

/-- The return `nil, err`. -/
def Outcome.fail {ρ : Type} (c : chapa) (e : GoError) (calls : List Request)
    (logs : List LogLine) : Outcome ρ :=
  { resp := none, err := some e, calls := calls, logs := logs, self := c }

/-- The return `&response, nil`. -/
def Outcome.done {ρ : Type} (c : chapa) (r : ρ) (calls : List Request) : Outcome ρ :=
  { resp := some r, err := none, calls := calls, logs := [], self := c }

/-- The function `New`. -/
def New (apiKey : String) (timeout : Int64) : chapa :=
  { apiKey := apiKey, client := { Timeout := { nanoseconds := timeout } } }

/-- The two `req.Header.Set` lines that every operation runs. -/
def setHeaders (c : chapa) (req : Request) : Request :=
  { req with
    Header := (req.Header.Set "Content-Type" "application/json").Set "Authorization"
      ("Bearer " ++ c.apiKey) }

/-- The request that an operation is to hand to `c.client.Do`: the given
method, URL and body, the header with exactly the two entries `Authorization:
Bearer <key>` and `Content-Type: application/json`, and the `Close` flag. -/
def sentRequest (c : chapa) (method url : String) (body : Option Bytes) (close : Bool) :
    Request :=
  { Method := method, URL := url, Body := body,
    Header := [("Authorization", ["Bearer " ++ c.apiKey]),
      ("Content-Type", ["application/json"])],
    Close := close }

/-- The method `(*chapa).PaymentRequest`: on a validation error it returns
`&PaymentResponse{}` and the wrapped error. -/
def chapa.PaymentRequest {κ : Type} (L : Lib κ) (c : chapa) (request : PaymentRequest κ) :
    Outcome PaymentResponse :=
  match request.Validate with
  | some err =>
    let err2 := GoError.errorf ("invalid input " ++ err.Error)
    { resp := some PaymentResponse.zero, err := some err2, calls := [],
      logs := [{ format := "warning %v input %v", err := err2 }], self := c }
  | none =>
    match L.marshalPaymentRequest request with
    | .error e => Outcome.fail c e [] []
    | .ok data =>
      match NewRequest L MethodPost acceptPaymentV1APIURL (some data) with
      | .error e => Outcome.fail c e [] []
      | .ok req =>
        let req := { setHeaders c req with Close := true }
        match L.Do c.client req with
        | .error e => Outcome.fail c e [req] []
        | .ok resp =>
          match resp.Body with
          | .error e => Outcome.fail c e [req] []
          | .ok body =>
            match L.unmarshalPaymentResponse body with
            | .error e => Outcome.fail c e [req] []
            | .ok response => Outcome.done c response [req]

/-- The method `(*chapa).Verify`. -/
def chapa.Verify {κ : Type} (L : Lib κ) (c : chapa) (txnRef : String) :
    Outcome VerifyResponse :=
  match NewRequest L MethodGet (verifyPaymentV1APIURL txnRef) none with
  | .error e => Outcome.fail c e [] []
  | .ok req =>
    let req := { setHeaders c req with Close := true }
    match L.Do c.client req with
    | .error e => Outcome.fail c e [req] []
    | .ok resp =>
      match resp.Body with
      | .error e => Outcome.fail c e [req] []
      | .ok body =>
        match L.unmarshalVerifyResponse body with
        | .error e => Outcome.fail c e [req] []
        | .ok response => Outcome.done c response [req]

/-- The method `(*chapa).TransferToBank`. -/
def chapa.TransferToBank {κ : Type} (L : Lib κ) (c : chapa) (request : BankTransfer) :
    Outcome BankTransferResponse :=
  match request.Validate with
  | some err =>
    let err2 := GoError.errorf ("invalid input " ++ err.Error)
    { resp := none, err := some err2, calls := [],
      logs := [{ format := "warning %v input %v", err := err2 }], self := c }
  | none =>
    match L.marshalBankTransfer request with
    | .error e => Outcome.fail c e [] []
    | .ok data =>
      match NewRequest L MethodPost transferToBankV1APIURL (some data) with
      | .error e => Outcome.fail c e [] [{ format := "error %v", err := e }]
      | .ok req =>
        let req := { setHeaders c req with Close := true }
        match L.Do c.client req with
        | .error e => Outcome.fail c e [req] [{ format := "error %v", err := e }]
        | .ok resp =>
          match resp.Body with
          | .error e => Outcome.fail c e [req] [{ format := "error while reading resposne body %v", err := e }]
          | .ok body =>
            match L.unmarshalBankTransferResponse body with
            | .error e => Outcome.fail c e [req] [{ format := "error while unmarshaling  response %v", err := e }]
            | .ok response => Outcome.done c response [req]

/-- The method `(*chapa).GetTransactions`; it does not set `req.Close`. -/
def chapa.GetTransactions {κ : Type} (L : Lib κ) (c : chapa) :
    Outcome TransactionsResponse :=
  match NewRequest L MethodGet transactionsV1APIURL none with
  | .error e => Outcome.fail c e [] [{ format := "error %v", err := e }]
  | .ok req =>
    let req := setHeaders c req
    match L.Do c.client req with
    | .error e => Outcome.fail c e [req] [{ format := "error %v", err := e }]
    | .ok resp =>
      match resp.Body with
      | .error e => Outcome.fail c e [req] [{ format := "error while reading response body %v", err := e }]
      | .ok body =>
        match L.unmarshalTransactionsResponse body with
        | .error e => Outcome.fail c e [req] [{ format := "error while unmarshaling  response %v", err := e }]
        | .ok response => Outcome.done c response [req]

/-- The method `(*chapa).GetBanks`; it does not set `req.Close`. -/
def chapa.GetBanks {κ : Type} (L : Lib κ) (c : chapa) :
    Outcome BanksResponse :=
  match NewRequest L MethodGet banksV1APIURL none with
  | .error e => Outcome.fail c e [] [{ format := "error %v", err := e }]
  | .ok req =>
    let req := setHeaders c req
    match L.Do c.client req with
    | .error e => Outcome.fail c e [req] [{ format := "error %v", err := e }]
    | .ok resp =>
      match resp.Body with
      | .error e => Outcome.fail c e [req] [{ format := "error while reading response body %v", err := e }]
      | .ok body =>
        match L.unmarshalBanksResponse body with
        | .error e => Outcome.fail c e [req] [{ format := "error while unmarshaling  response %v", err := e }]
        | .ok response => Outcome.done c response [req]

/-- The method `(*chapa).BulkTransfer`. -/
def chapa.BulkTransfer {κ : Type} (L : Lib κ) (c : chapa) (request : BulkTransferRequest) :
    Outcome BulkTransferResponse :=
  match request.Validate with
  | some err =>
    let err2 := GoError.errorf ("invalid input " ++ err.Error)
    { resp := none, err := some err2, calls := [],
      logs := [{ format := "warning %v input %v", err := err2 }], self := c }
  | none =>
    match L.marshalBulkTransferRequest request with
    | .error e => Outcome.fail c e [] []
    | .ok data =>
      match NewRequest L MethodPost bulkTransferAPIURL (some data) with
      | .error e => Outcome.fail c e [] [{ format := "error %v", err := e }]
      | .ok req =>
        let req := { setHeaders c req with Close := true }
        match L.Do c.client req with
        | .error e => Outcome.fail c e [req] [{ format := "error %v", err := e }]
        | .ok resp =>
          match resp.Body with
          | .error e => Outcome.fail c e [req] [{ format := "error while reading resposne body %v", err := e }]
          | .ok body =>
            match L.unmarshalBulkTransferResponse body with
            | .error e => Outcome.fail c e [req] [{ format := "error while unmarshaling  response %v", err := e }]
            | .ok response => Outcome.done c response [req]

/-! ## Sample values used to instantiate the theorems -/

/-- The constants `Nanosecond`, `Millisecond` and `Second` of package time, in
nanoseconds. -/
def Nanosecond : Int := 1

/-- One millisecond in nanoseconds. -/
def Millisecond : Int := 1000000

/-- One second in nanoseconds. -/
def Second : Int := 1000000000

/-- A library behaviour in which every call succeeds: the transport answers
with status 200 and an empty body, and the decoders return zero values. -/
def Lib.allOk : Lib Unit :=
  { marshalPaymentRequest := fun _ => .ok []
    marshalBankTransfer := fun _ => .ok []
    marshalBulkTransferRequest := fun _ => .ok []
    newRequestError := fun _ _ => none
    Do := fun _ _ => .ok { StatusCode := 200, Body := .ok [] }
    unmarshalPaymentResponse := fun _ => .ok PaymentResponse.zero
    unmarshalVerifyResponse := fun _ => .ok VerifyResponse.zero
    unmarshalBankTransferResponse := fun _ => .ok BankTransferResponse.zero
    unmarshalTransactionsResponse := fun _ => .ok TransactionsResponse.zero
    unmarshalBanksResponse := fun _ => .ok BanksResponse.zero
    unmarshalBulkTransferResponse := fun _ => .ok BulkTransferResponse.zero }

/-- The behaviour of `Lib.allOk` with a transport that fails on every request. -/
def Lib.transportDown : Lib Unit :=
  { Lib.allOk with Do := fun _ _ => .error (.external "connection refused") }

/-- The behaviour of `Lib.allOk` with decoders that reject every body. -/
def Lib.malformedBody : Lib Unit :=
  { Lib.allOk with
    unmarshalPaymentResponse := fun _ => .error (.external "unexpected end of JSON input")
    unmarshalVerifyResponse := fun _ => .error (.external "unexpected end of JSON input")
    unmarshalBankTransferResponse := fun _ => .error (.external "unexpected end of JSON input")
    unmarshalTransactionsResponse := fun _ => .error (.external "unexpected end of JSON input")
    unmarshalBanksResponse := fun _ => .error (.external "unexpected end of JSON input")
    unmarshalBulkTransferResponse := fun _ => .error (.external "unexpected end of JSON input") }

/-- The library `L` with the status code of every response of the transport
replaced by `g` of it; bodies and errors are those of `L`. -/
def Lib.mapStatus {κ : Type} (L : Lib κ) (g : Int → Int) : Lib κ :=
  { L with
    Do := fun h r =>
      match L.Do h r with
      | .error e => .error e
      | .ok resp => .ok { resp with StatusCode := g resp.StatusCode } }

/-- A payment request with a reference and a currency whose amount was left
at its zero value. -/
def PaymentRequest.zeroAmount : PaymentRequest Unit :=
  { Amount := Decimal.zero, Currency := "ETB", Email := "", FirstName := "", LastName := "",
    Phone := "", CallbackURL := "", TransactionRef := "tx-1", Customization := none }

/-- A payment request with every required field present. -/
def PaymentRequest.sample : PaymentRequest Unit :=
  { PaymentRequest.zeroAmount with Amount := { value := some 100, exp := 0 } }

/-- A payment request without a currency. -/
def PaymentRequest.noCurrency : PaymentRequest Unit :=
  { PaymentRequest.sample with Currency := "" }

/-- A bank transfer with every required field present. -/
def BankTransfer.sample : BankTransfer :=
  { AccountName := "Abebe", AccountNumber := "1000", Amount := Float64.one, Currency := "ETB",
    Reference := "ref-1", BankCode := "32" }

/-- A bank transfer whose amount is zero. -/
def BankTransfer.zeroAmount : BankTransfer :=
  { BankTransfer.sample with Amount := Float64.zero }

/-- One entry of a bulk transfer. -/
def BulkData.sample : BulkData :=
  { AccountName := "Abebe", AccountNumber := "1000", Amount := ⟨10, by norm_num⟩,
    Reference := "ref-1", BankCode := "32" }

/-- A bulk transfer with a title, a currency and one entry. -/
def BulkTransferRequest.sample : BulkTransferRequest :=
  { Title := "payouts", Currency := "ETB", BulkData := some [BulkData.sample] }

/-- A bulk transfer with a title and a currency whose `BulkData` was left unset. -/
def BulkTransferRequest.nilData : BulkTransferRequest :=
  { Title := "payouts", Currency := "ETB", BulkData := none }

/-- A bulk transfer with a title and a currency whose `BulkData` is an empty
slice that is not nil. -/
def BulkTransferRequest.emptyData : BulkTransferRequest :=
  { Title := "payouts", Currency := "ETB", BulkData := some [] }

/-- A client made by `New` with a key and a timeout of five seconds. -/
def chapa.sample : chapa := New "secret-key" ⟨5000000000, by norm_num⟩

/-! ## Validation rules -/

theorem utf8ByteSize_eq_zero_iff (s : String) : s.utf8ByteSize = 0 ↔ s = "" := by
  obtain ⟨cs⟩ := s
  cases cs with
  | nil => simp [String.utf8ByteSize, String.utf8ByteSize.go]
  | cons c cs =>
    have hpos := Char.utf8Size_pos c
    simp only [String.utf8ByteSize, String.utf8ByteSize.go]
    constructor
    · intro h; omega
    · intro h; exact absurd (congrArg String.data h) (by simp)

/-- `Required` with a message on a string: the message exactly for the empty string. -/
theorem required_string (msg s : String) :
    validation.Validate (.string s) [validation.Required.Error msg] =
      if s = "" then some msg else none := by
  by_cases h : s = ""
  · subst h; rfl
  · have h2 : ¬ s.utf8ByteSize = 0 := fun h0 => h ((utf8ByteSize_eq_zero_iff s).1 h0)
    simp [validation.Validate, validation.RequiredRule.Validate, validation.RequiredRule.Error,
      validation.Required, validation.Indirect, validation.IsEmpty, h, h2]

/-- `Required` with a message on a float64: the message exactly when it `== 0`. -/
theorem required_float (msg : String) (f : Float64) :
    validation.Validate (.float64 f) [validation.Required.Error msg] =
      if f.isZero then some msg else none := by
  cases h : f.isZero <;>
  simp [validation.Validate, validation.RequiredRule.Validate, validation.RequiredRule.Error,
      validation.Required, validation.Indirect, validation.IsEmpty, h]

theorem natText_ne_nil (n : Nat) : natText n ≠ [] := by
  unfold natText
  split
  · simp
  · simp only [ne_eq, List.reverse_eq_nil_iff]
    unfold digitsRev
    split <;> simp

theorem intText_ne_nil (n : Int) : intText n ≠ [] := by
  unfold intText
  split
  · simp
  · exact natText_ne_nil _

/-- The text of a decimal is never empty. -/
theorem decimal_text_ne_empty (d : Decimal) : d.text ≠ "" := by
  intro h
  have hd := congrArg String.data h
  unfold Decimal.text at hd
  simp only [] at hd
  split at hd
  · exact intText_ne_nil _ hd
  · have hn := natText_ne_nil (Option.getD d.value 0).natAbs
    revert hd
    generalize natText (Option.getD d.value 0).natAbs = str at hn ⊢
    intro hd
    have hpos : 0 < str.length := List.length_pos.2 hn
    split_ifs at hd <;>
      (have hlen := congrArg List.length hd
       simp at hlen <;> omega)

/-- `Required` on a `decimal.Decimal` never fails: the rule sees the text of
the number, which is not empty. -/
theorem required_decimal (msg : String) (d : Decimal) :
    validation.Validate (.decimal d) [validation.Required.Error msg] = none := by
  have h2 : ¬ d.text.utf8ByteSize = 0 :=
    fun h0 => decimal_text_ne_empty d ((utf8ByteSize_eq_zero_iff _).1 h0)
  simp [validation.Validate, validation.RequiredRule.Validate, validation.RequiredRule.Error,
      validation.Required, validation.Indirect, validation.IsEmpty, Decimal.Value, h2]

/-- `NilOrNotEmpty` with a message on a slice: the message exactly for a slice
that is empty and not nil. -/
theorem nilOrNotEmpty_slice (msg : String) (xs : Option (List BulkData)) :
    validation.Validate (.slice (xs.map List.length)) [validation.NilOrNotEmpty.Error msg] =
      if xs = some [] then some msg else none := by
  cases xs with
  | none => rfl
  | some l =>
    cases l with
    | nil => rfl
    | cons a l =>
      simp [validation.Validate, validation.RequiredRule.Validate, validation.RequiredRule.Error,
        validation.NilOrNotEmpty, validation.Indirect, validation.IsEmpty]

/-! ## The three `Validate` methods -/

/-- `PaymentRequest.Validate` passes exactly when the reference and the
currency are not empty; the amount has no influence. -/
theorem paymentRequest_validate_eq_none_iff {κ : Type} (p : PaymentRequest κ) :
    p.Validate = none ↔ p.TransactionRef ≠ "" ∧ p.Currency ≠ "" := by
  simp only [PaymentRequest.Validate, validation.ValidateStruct, validation.collect,
    required_string, required_decimal]
  by_cases h1 : p.TransactionRef = "" <;> by_cases h2 : p.Currency = "" <;> simp [h1, h2]

/-- `BankTransfer.Validate` passes exactly when the five strings are not
empty and the amount is not `== 0`. -/
theorem bankTransfer_validate_eq_none_iff (t : BankTransfer) :
    t.Validate = none ↔
      t.AccountName ≠ "" ∧ t.AccountNumber ≠ "" ∧ t.Amount.isZero = false ∧
      t.Currency ≠ "" ∧ t.Reference ≠ "" ∧ t.BankCode ≠ "" := by
  simp only [BankTransfer.Validate, validation.ValidateStruct, validation.collect,
    required_string, required_float]
  by_cases h1 : t.AccountName = "" <;> by_cases h2 : t.AccountNumber = "" <;>
  by_cases h3 : t.Amount.isZero = true <;> by_cases h4 : t.Currency = "" <;>
  by_cases h5 : t.Reference = "" <;> by_cases h6 : t.BankCode = "" <;>
  simp [h1, h2, h3, h4, h5, h6]

/-- `BulkTransferRequest.Validate` passes exactly when the title and the
currency are not empty and `BulkData` is not an empty slice that is not nil. -/
theorem bulkTransferRequest_validate_eq_none_iff (t : BulkTransferRequest) :
    t.Validate = none ↔ t.Title ≠ "" ∧ t.Currency ≠ "" ∧ t.BulkData ≠ some [] := by
  simp only [BulkTransferRequest.Validate, validation.ValidateStruct, validation.collect,
    required_string, nilOrNotEmpty_slice]
  by_cases h1 : t.Title = "" <;> by_cases h2 : t.Currency = "" <;>
  by_cases h3 : t.BulkData = some [] <;> simp [h1, h2, h3]

/-- On a request that fails validation `PaymentRequest` returns
`&PaymentResponse{}` and the wrapped error, and calls nothing. -/
theorem paymentRequest_invalid {κ : Type} (L : Lib κ) (c : chapa)
    (request : PaymentRequest κ) (e : GoError) (h : request.Validate = some e) :
    c.PaymentRequest L request =
      { resp := some PaymentResponse.zero,
        err := some (.errorf ("invalid input " ++ e.Error)), calls := [],
        logs := [{ format := "warning %v input %v",
                   err := .errorf ("invalid input " ++ e.Error) }], self := c } := by
  simp [chapa.PaymentRequest, h]

/-- On a request that fails validation `TransferToBank` returns nil and the
wrapped error, and calls nothing. -/
theorem transferToBank_invalid {κ : Type} (L : Lib κ) (c : chapa)
    (request : BankTransfer) (e : GoError) (h : request.Validate = some e) :
    c.TransferToBank L request =
      { resp := none, err := some (.errorf ("invalid input " ++ e.Error)), calls := [],
        logs := [{ format := "warning %v input %v",
                   err := .errorf ("invalid input " ++ e.Error) }], self := c } := by
  simp [chapa.TransferToBank, h]

/-- On a request that fails validation `BulkTransfer` returns nil and the
wrapped error, and calls nothing. -/
theorem bulkTransfer_invalid {κ : Type} (L : Lib κ) (c : chapa)
    (request : BulkTransferRequest) (e : GoError) (h : request.Validate = some e) :
    c.BulkTransfer L request =
      { resp := none, err := some (.errorf ("invalid input " ++ e.Error)), calls := [],
        logs := [{ format := "warning %v input %v",
                   err := .errorf ("invalid input " ++ e.Error) }], self := c } := by
  simp [chapa.BulkTransfer, h]

/-- C1: the claim asks for an error when the amount is left at its zero value;
on the request `PaymentRequest.zeroAmount` (reference and currency present,
amount zero) `Validate` returns no error, `PaymentRequest` goes on to send the
request, and the rule written for the amount accepts every decimal. The two
string fields are checked as the claim says. -/
theorem paymentRequest_zero_amount_passes_validation :
    PaymentRequest.zeroAmount.Validate = none ∧
    (chapa.sample.PaymentRequest Lib.allOk PaymentRequest.zeroAmount).calls.length = 1 ∧
    (chapa.sample.PaymentRequest Lib.allOk PaymentRequest.zeroAmount).err = none ∧
    (∀ d : Decimal,
      validation.Validate (.decimal d) [validation.Required.Error "amount is required"] = none) ∧
    (∀ p : PaymentRequest Unit, p.TransactionRef = "" ∨ p.Currency = "" → p.Validate ≠ none) := by
  refine ⟨by decide, by decide, by decide, fun d => required_decimal _ d, ?_⟩
  intro p hp hv
  have := (paymentRequest_validate_eq_none_iff p).1 hv
  tauto

/-- C2: the claim asks for an error when `BulkData` was left unset; on the
request `BulkTransferRequest.nilData` (title and currency present, `BulkData`
nil) `Validate` returns no error and `BulkTransfer` goes on to send the
request. An empty slice that is not nil, an empty title and an empty currency
are rejected as the claim says, and a request with all three present passes. -/
theorem bulkTransfer_nil_data_passes_validation :
    BulkTransferRequest.nilData.Validate = none ∧
    (chapa.sample.BulkTransfer Lib.allOk BulkTransferRequest.nilData).calls.length = 1 ∧
    (chapa.sample.BulkTransfer Lib.allOk BulkTransferRequest.nilData).err = none ∧
    BulkTransferRequest.emptyData.Validate =
      some (.validation [("bulk_data", "at least one account is required")]) ∧
    (∀ t : BulkTransferRequest,
      t.Validate = none ↔ t.Title ≠ "" ∧ t.Currency ≠ "" ∧ t.BulkData ≠ some []) := by
  exact ⟨by decide, by decide, by decide, by decide, bulkTransferRequest_validate_eq_none_iff⟩

/-- C3: `BankTransfer.Validate` returns no error exactly when account name,
account number, currency, reference and bank code are not empty and the amount
is not zero (`Amount == 0` is false); in every other case it returns an error
and `TransferToBank` returns nil with the error `invalid input ...` without
calling the transport. -/
theorem bankTransfer_validate_iff (t : BankTransfer) :
    (t.Validate = none ↔
      t.AccountName ≠ "" ∧ t.AccountNumber ≠ "" ∧ t.Amount.isZero = false ∧
      t.Currency ≠ "" ∧ t.Reference ≠ "" ∧ t.BankCode ≠ "") ∧
    (∀ (κ : Type) (L : Lib κ) (c : chapa),
      (t.AccountName = "" ∨ t.AccountNumber = "" ∨ t.Amount.isZero = true ∨
        t.Currency = "" ∨ t.Reference = "" ∨ t.BankCode = "") →
      ∃ e, t.Validate = some e ∧ (c.TransferToBank L t).resp = none ∧
        (c.TransferToBank L t).err = some (.errorf ("invalid input " ++ e.Error)) ∧
        (c.TransferToBank L t).calls = []) := by
  refine ⟨bankTransfer_validate_eq_none_iff t, ?_⟩
  intro κ L c hbad
  cases hv : t.Validate with
  | none =>
    have := (bankTransfer_validate_eq_none_iff t).1 hv
    simp_all
  | some e =>
    exact ⟨e, rfl, by simp [transferToBank_invalid L c t e hv]⟩

/-- An instance of C3: a transfer with a zero amount is rejected with the
message for the amount, and a complete transfer passes. -/
theorem bankTransfer_validate_iff_witness :
    BankTransfer.zeroAmount.Validate = some (.validation [("amount", "amount is required")]) ∧
    BankTransfer.sample.Validate = none ∧
    (chapa.sample.TransferToBank Lib.allOk BankTransfer.zeroAmount).calls = [] := by
  have h := bankTransfer_validate_iff BankTransfer.zeroAmount
  have h2 := (bankTransfer_validate_iff BankTransfer.sample).1.2 (by decide)
  obtain ⟨e, _, _, _, h4⟩ := h.2 Unit Lib.allOk chapa.sample (by decide)
  exact ⟨by decide, h2, h4⟩

/-! ## The request that reaches the transport -/

/-- The two headers of a request built by `setHeaders`. -/
theorem setHeaders_get (c : chapa) (req : Request) :
    (setHeaders c req).Header.Get "Authorization" = "Bearer " ++ c.apiKey ∧
    ((setHeaders c req).Header.Get "Content-Type" = "application/json") := by
  have h1 : CanonicalMIMEHeaderKey "Authorization" = "Authorization" := by decide
  have h2 : CanonicalMIMEHeaderKey "Content-Type" = "Content-Type" := by decide
  have h3 : ("Content-Type" == "Authorization") = false := by decide
  have h4 : ("Authorization" == "Content-Type") = false := by decide
  simp [setHeaders, Header.Get, Header.Set, h1, h2, h3, h4, List.find?, List.filter]

/-- What holds of a request that `PaymentRequest` hands to the transport: its two
headers, and how the result follows from the answer of the transport. -/
theorem paymentRequest_sent {κ : Type} (L : Lib κ) (c : chapa) (request : PaymentRequest κ)
    (req : Request) (hreq : req ∈ (c.PaymentRequest L request).calls) :
    req.Header.Get "Authorization" = "Bearer " ++ c.apiKey ∧
    req.Header.Get "Content-Type" = "application/json" ∧
    (∀ e, L.Do c.client req = .error e →
      (c.PaymentRequest L request).resp = none ∧ (c.PaymentRequest L request).err = some e) ∧
    (∀ resp body e, L.Do c.client req = .ok resp → resp.Body = .ok body →
      L.unmarshalPaymentResponse body = .error e →
      (c.PaymentRequest L request).resp = none ∧ (c.PaymentRequest L request).err = some e) ∧
    (∀ resp body r, L.Do c.client req = .ok resp → resp.Body = .ok body →
      L.unmarshalPaymentResponse body = .ok r →
      (c.PaymentRequest L request).resp = some r ∧ (c.PaymentRequest L request).err = none) := by
  unfold chapa.PaymentRequest at hreq ⊢
  cases hv : request.Validate with
  | some e0 => simp [hv] at hreq
  | none =>
    cases hm : L.marshalPaymentRequest request with
    | error e0 => simp [hv, hm, Outcome.fail] at hreq
    | ok data =>
      cases hn : NewRequest L MethodPost acceptPaymentV1APIURL (some data) with
      | error e0 => simp [hv, hm, hn, Outcome.fail] at hreq
      | ok r0 =>
        have hq : req = { setHeaders c r0 with Close := true } := by
          simp only [hv, hm, hn] at hreq
          split at hreq
          · simpa [Outcome.fail] using hreq
          · split at hreq
            · simpa [Outcome.fail] using hreq
            · split at hreq <;> simpa [Outcome.fail, Outcome.done] using hreq
        subst hq
        refine ⟨(setHeaders_get c r0).1, (setHeaders_get c r0).2, ?_, ?_, ?_⟩
        · intro e he
          simp [hv, hm, hn, he, Outcome.fail]
        · intro resp body e he hb hu
          simp [hv, hm, hn, he, hb, hu, Outcome.fail]
        · intro resp body r he hb hu
          simp [hv, hm, hn, he, hb, hu, Outcome.done]

/-- What holds of a request that `Verify` hands to the transport: its two
headers, and how the result follows from the answer of the transport. -/
theorem verify_sent {κ : Type} (L : Lib κ) (c : chapa) (txnRef : String)
    (req : Request) (hreq : req ∈ (c.Verify L txnRef).calls) :
    req.Header.Get "Authorization" = "Bearer " ++ c.apiKey ∧
    req.Header.Get "Content-Type" = "application/json" ∧
    (∀ e, L.Do c.client req = .error e →
      (c.Verify L txnRef).resp = none ∧ (c.Verify L txnRef).err = some e) ∧
    (∀ resp body e, L.Do c.client req = .ok resp → resp.Body = .ok body →
      L.unmarshalVerifyResponse body = .error e →
      (c.Verify L txnRef).resp = none ∧ (c.Verify L txnRef).err = some e) ∧
    (∀ resp body r, L.Do c.client req = .ok resp → resp.Body = .ok body →
      L.unmarshalVerifyResponse body = .ok r →
      (c.Verify L txnRef).resp = some r ∧ (c.Verify L txnRef).err = none) := by
  unfold chapa.Verify at hreq ⊢
  cases hn : NewRequest L MethodGet (verifyPaymentV1APIURL txnRef) none with
  | error e0 => simp [hn, Outcome.fail] at hreq
  | ok r0 =>
    have hq : req = { setHeaders c r0 with Close := true } := by
      simp only [hn] at hreq
      split at hreq
      · simpa [Outcome.fail] using hreq
      · split at hreq
        · simpa [Outcome.fail] using hreq
        · split at hreq <;> simpa [Outcome.fail, Outcome.done] using hreq
    subst hq
    refine ⟨(setHeaders_get c r0).1, (setHeaders_get c r0).2, ?_, ?_, ?_⟩
    · intro e he
      simp [hn, he, Outcome.fail]
    · intro resp body e he hb hu
      simp [hn, he, hb, hu, Outcome.fail]
    · intro resp body r he hb hu
      simp [hn, he, hb, hu, Outcome.done]

/-- What holds of a request that `TransferToBank` hands to the transport: its two
headers, and how the result follows from the answer of the transport. -/
theorem transferToBank_sent {κ : Type} (L : Lib κ) (c : chapa) (request : BankTransfer)
    (req : Request) (hreq : req ∈ (c.TransferToBank L request).calls) :
    req.Header.Get "Authorization" = "Bearer " ++ c.apiKey ∧
    req.Header.Get "Content-Type" = "application/json" ∧
    (∀ e, L.Do c.client req = .error e →
      (c.TransferToBank L request).resp = none ∧ (c.TransferToBank L request).err = some e) ∧
    (∀ resp body e, L.Do c.client req = .ok resp → resp.Body = .ok body →
      L.unmarshalBankTransferResponse body = .error e →
      (c.TransferToBank L request).resp = none ∧ (c.TransferToBank L request).err = some e) ∧
    (∀ resp body r, L.Do c.client req = .ok resp → resp.Body = .ok body →
      L.unmarshalBankTransferResponse body = .ok r →
      (c.TransferToBank L request).resp = some r ∧ (c.TransferToBank L request).err = none) := by
  unfold chapa.TransferToBank at hreq ⊢
  cases hv : request.Validate with
  | some e0 => simp [hv] at hreq
  | none =>
    cases hm : L.marshalBankTransfer request with
    | error e0 => simp [hv, hm, Outcome.fail] at hreq
    | ok data =>
      cases hn : NewRequest L MethodPost transferToBankV1APIURL (some data) with
      | error e0 => simp [hv, hm, hn, Outcome.fail] at hreq
      | ok r0 =>
        have hq : req = { setHeaders c r0 with Close := true } := by
          simp only [hv, hm, hn] at hreq
          split at hreq
          · simpa [Outcome.fail] using hreq
          · split at hreq
            · simpa [Outcome.fail] using hreq
            · split at hreq <;> simpa [Outcome.fail, Outcome.done] using hreq
        subst hq
        refine ⟨(setHeaders_get c r0).1, (setHeaders_get c r0).2, ?_, ?_, ?_⟩
        · intro e he
          simp [hv, hm, hn, he, Outcome.fail]
        · intro resp body e he hb hu
          simp [hv, hm, hn, he, hb, hu, Outcome.fail]
        · intro resp body r he hb hu
          simp [hv, hm, hn, he, hb, hu, Outcome.done]

/-- What holds of a request that `GetTransactions` hands to the transport: its two
headers, and how the result follows from the answer of the transport. -/
theorem getTransactions_sent {κ : Type} (L : Lib κ) (c : chapa)
    (req : Request) (hreq : req ∈ (c.GetTransactions L).calls) :
    req.Header.Get "Authorization" = "Bearer " ++ c.apiKey ∧
    req.Header.Get "Content-Type" = "application/json" ∧
    (∀ e, L.Do c.client req = .error e →
      (c.GetTransactions L).resp = none ∧ (c.GetTransactions L).err = some e) ∧
    (∀ resp body e, L.Do c.client req = .ok resp → resp.Body = .ok body →
      L.unmarshalTransactionsResponse body = .error e →
      (c.GetTransactions L).resp = none ∧ (c.GetTransactions L).err = some e) ∧
    (∀ resp body r, L.Do c.client req = .ok resp → resp.Body = .ok body →
      L.unmarshalTransactionsResponse body = .ok r →
      (c.GetTransactions L).resp = some r ∧ (c.GetTransactions L).err = none) := by
  unfold chapa.GetTransactions at hreq ⊢
  cases hn : NewRequest L MethodGet transactionsV1APIURL none with
  | error e0 => simp [hn, Outcome.fail] at hreq
  | ok r0 =>
    have hq : req = setHeaders c r0 := by
      simp only [hn] at hreq
      split at hreq
      · simpa [Outcome.fail] using hreq
      · split at hreq
        · simpa [Outcome.fail] using hreq
        · split at hreq <;> simpa [Outcome.fail, Outcome.done] using hreq
    subst hq
    refine ⟨(setHeaders_get c r0).1, (setHeaders_get c r0).2, ?_, ?_, ?_⟩
    · intro e he
      simp [hn, he, Outcome.fail]
    · intro resp body e he hb hu
      simp [hn, he, hb, hu, Outcome.fail]
    · intro resp body r he hb hu
      simp [hn, he, hb, hu, Outcome.done]

/-- What holds of a request that `GetBanks` hands to the transport: its two
headers, and how the result follows from the answer of the transport. -/
theorem getBanks_sent {κ : Type} (L : Lib κ) (c : chapa)
    (req : Request) (hreq : req ∈ (c.GetBanks L).calls) :
    req.Header.Get "Authorization" = "Bearer " ++ c.apiKey ∧
    req.Header.Get "Content-Type" = "application/json" ∧
    (∀ e, L.Do c.client req = .error e →
      (c.GetBanks L).resp = none ∧ (c.GetBanks L).err = some e) ∧
    (∀ resp body e, L.Do c.client req = .ok resp → resp.Body = .ok body →
      L.unmarshalBanksResponse body = .error e →
      (c.GetBanks L).resp = none ∧ (c.GetBanks L).err = some e) ∧
    (∀ resp body r, L.Do c.client req = .ok resp → resp.Body = .ok body →
      L.unmarshalBanksResponse body = .ok r →
      (c.GetBanks L).resp = some r ∧ (c.GetBanks L).err = none) := by
  unfold chapa.GetBanks at hreq ⊢
  cases hn : NewRequest L MethodGet banksV1APIURL none with
  | error e0 => simp [hn, Outcome.fail] at hreq
  | ok r0 =>
    have hq : req = setHeaders c r0 := by
      simp only [hn] at hreq
      split at hreq
      · simpa [Outcome.fail] using hreq
      · split at hreq
        · simpa [Outcome.fail] using hreq
        · split at hreq <;> simpa [Outcome.fail, Outcome.done] using hreq
    subst hq
    refine ⟨(setHeaders_get c r0).1, (setHeaders_get c r0).2, ?_, ?_, ?_⟩
    · intro e he
      simp [hn, he, Outcome.fail]
    · intro resp body e he hb hu
      simp [hn, he, hb, hu, Outcome.fail]
    · intro resp body r he hb hu
      simp [hn, he, hb, hu, Outcome.done]

/-- What holds of a request that `BulkTransfer` hands to the transport: its two
headers, and how the result follows from the answer of the transport. -/
theorem bulkTransfer_sent {κ : Type} (L : Lib κ) (c : chapa) (request : BulkTransferRequest)
    (req : Request) (hreq : req ∈ (c.BulkTransfer L request).calls) :
    req.Header.Get "Authorization" = "Bearer " ++ c.apiKey ∧
    req.Header.Get "Content-Type" = "application/json" ∧
    (∀ e, L.Do c.client req = .error e →
      (c.BulkTransfer L request).resp = none ∧ (c.BulkTransfer L request).err = some e) ∧
    (∀ resp body e, L.Do c.client req = .ok resp → resp.Body = .ok body →
      L.unmarshalBulkTransferResponse body = .error e →
      (c.BulkTransfer L request).resp = none ∧ (c.BulkTransfer L request).err = some e) ∧
    (∀ resp body r, L.Do c.client req = .ok resp → resp.Body = .ok body →
      L.unmarshalBulkTransferResponse body = .ok r →
      (c.BulkTransfer L request).resp = some r ∧ (c.BulkTransfer L request).err = none) := by
  unfold chapa.BulkTransfer at hreq ⊢
  cases hv : request.Validate with
  | some e0 => simp [hv] at hreq
  | none =>
    cases hm : L.marshalBulkTransferRequest request with
    | error e0 => simp [hv, hm, Outcome.fail] at hreq
    | ok data =>
      cases hn : NewRequest L MethodPost bulkTransferAPIURL (some data) with
      | error e0 => simp [hv, hm, hn, Outcome.fail] at hreq
      | ok r0 =>
        have hq : req = { setHeaders c r0 with Close := true } := by
          simp only [hv, hm, hn] at hreq
          split at hreq
          · simpa [Outcome.fail] using hreq
          · split at hreq
            · simpa [Outcome.fail] using hreq
            · split at hreq <;> simpa [Outcome.fail, Outcome.done] using hreq
        subst hq
        refine ⟨(setHeaders_get c r0).1, (setHeaders_get c r0).2, ?_, ?_, ?_⟩
        · intro e he
          simp [hv, hm, hn, he, Outcome.fail]
        · intro resp body e he hb hu
          simp [hv, hm, hn, he, hb, hu, Outcome.fail]
        · intro resp body r he hb hu
          simp [hv, hm, hn, he, hb, hu, Outcome.done]

/-! ## Every operation hands its request to the transport -/

/-- The request that `setHeaders` makes of a fresh request is `sentRequest`
without the `Close` flag. -/
theorem setHeaders_fresh (c : chapa) (method url : String) (body : Option Bytes) :
    setHeaders c { Method := method, URL := url, Body := body, Header := [], Close := false } =
      sentRequest c method url body false := by
  have h1 : CanonicalMIMEHeaderKey "Authorization" = "Authorization" := by decide
  have h2 : CanonicalMIMEHeaderKey "Content-Type" = "Content-Type" := by decide
  have h3 : ("Content-Type" != "Authorization") = true := by decide
  simp [setHeaders, sentRequest, Header.Set, h1, h2, h3, List.filter]


/-- When validation, marshalling and `http.NewRequest` succeed, `PaymentRequest` hands
exactly one request to the transport: `sentRequest` for its method, URL and body. -/
theorem paymentRequest_calls {κ : Type} (L : Lib κ) (c : chapa)
    (request : PaymentRequest κ) (data : Bytes)
    (hv : request.Validate = none)
    (hm : L.marshalPaymentRequest request = .ok data)
    (hn : L.newRequestError MethodPost acceptPaymentV1APIURL = none) :
    (c.PaymentRequest L request).calls =
      [sentRequest c MethodPost acceptPaymentV1APIURL (some data) true] := by
  unfold chapa.PaymentRequest
  simp only [hv, hm, hn, NewRequest, setHeaders_fresh]
  repeat' split
  all_goals simp [Outcome.fail, Outcome.done, sentRequest]

/-- When `http.NewRequest` succeeds, `Verify` hands exactly one request to the
transport: `sentRequest` for its method and URL. -/
theorem verify_calls {κ : Type} (L : Lib κ) (c : chapa) (txnRef : String)
    (hn : L.newRequestError MethodGet (verifyPaymentV1APIURL txnRef) = none) :
    (c.Verify L txnRef).calls =
      [sentRequest c MethodGet (verifyPaymentV1APIURL txnRef) none true] := by
  unfold chapa.Verify
  simp only [hn, NewRequest, setHeaders_fresh]
  repeat' split
  all_goals simp [Outcome.fail, Outcome.done, sentRequest]

/-- When validation, marshalling and `http.NewRequest` succeed, `TransferToBank` hands
exactly one request to the transport: `sentRequest` for its method, URL and body. -/
theorem transferToBank_calls {κ : Type} (L : Lib κ) (c : chapa)
    (request : BankTransfer) (data : Bytes)
    (hv : request.Validate = none)
    (hm : L.marshalBankTransfer request = .ok data)
    (hn : L.newRequestError MethodPost transferToBankV1APIURL = none) :
    (c.TransferToBank L request).calls =
      [sentRequest c MethodPost transferToBankV1APIURL (some data) true] := by
  unfold chapa.TransferToBank
  simp only [hv, hm, hn, NewRequest, setHeaders_fresh]
  repeat' split
  all_goals simp [Outcome.fail, Outcome.done, sentRequest]

/-- When `http.NewRequest` succeeds, `GetTransactions` hands exactly one request to the
transport: `sentRequest` for its method and URL. -/
theorem getTransactions_calls {κ : Type} (L : Lib κ) (c : chapa)
    (hn : L.newRequestError MethodGet transactionsV1APIURL = none) :
    (c.GetTransactions L).calls = [sentRequest c MethodGet transactionsV1APIURL none false] := by
  unfold chapa.GetTransactions
  simp only [hn, NewRequest, setHeaders_fresh]
  repeat' split
  all_goals simp [Outcome.fail, Outcome.done, sentRequest]

/-- When `http.NewRequest` succeeds, `GetBanks` hands exactly one request to the
transport: `sentRequest` for its method and URL. -/
theorem getBanks_calls {κ : Type} (L : Lib κ) (c : chapa)
    (hn : L.newRequestError MethodGet banksV1APIURL = none) :
    (c.GetBanks L).calls = [sentRequest c MethodGet banksV1APIURL none false] := by
  unfold chapa.GetBanks
  simp only [hn, NewRequest, setHeaders_fresh]
  repeat' split
  all_goals simp [Outcome.fail, Outcome.done, sentRequest]

/-- When validation, marshalling and `http.NewRequest` succeed, `BulkTransfer` hands
exactly one request to the transport: `sentRequest` for its method, URL and body. -/
theorem bulkTransfer_calls {κ : Type} (L : Lib κ) (c : chapa)
    (request : BulkTransferRequest) (data : Bytes)
    (hv : request.Validate = none)
    (hm : L.marshalBulkTransferRequest request = .ok data)
    (hn : L.newRequestError MethodPost bulkTransferAPIURL = none) :
    (c.BulkTransfer L request).calls =
      [sentRequest c MethodPost bulkTransferAPIURL (some data) true] := by
  unfold chapa.BulkTransfer
  simp only [hv, hm, hn, NewRequest, setHeaders_fresh]
  repeat' split
  all_goals simp [Outcome.fail, Outcome.done, sentRequest]

/-! ## The status code of the response -/


/-- `PaymentRequest` gives the same outcome when the status codes of the responses are
replaced. -/
theorem paymentRequest_mapStatus {κ : Type} (L : Lib κ) (g : Int → Int) (c : chapa)
    (request : PaymentRequest κ) :
    c.PaymentRequest (L.mapStatus g) request = c.PaymentRequest L request := by
  unfold chapa.PaymentRequest
  simp only [Lib.mapStatus, NewRequest]
  cases request.Validate with
  | some e0 => rfl
  | none =>
    cases L.marshalPaymentRequest request with
    | error e0 => rfl
    | ok data =>
      cases L.newRequestError MethodPost acceptPaymentV1APIURL with
      | some e0 => rfl
      | none =>
        simp only []
        split <;> rename_i hd <;> split at hd <;> (try cases hd) <;> simp_all

/-- `Verify` gives the same outcome when the status codes of the responses are
replaced. -/
theorem verify_mapStatus {κ : Type} (L : Lib κ) (g : Int → Int) (c : chapa) (txnRef : String) :
    c.Verify (L.mapStatus g) txnRef = c.Verify L txnRef := by
  unfold chapa.Verify
  simp only [Lib.mapStatus, NewRequest]
  cases L.newRequestError MethodGet (verifyPaymentV1APIURL txnRef) with
  | some e0 => rfl
  | none =>
    simp only []
    split <;> rename_i hd <;> split at hd <;> (try cases hd) <;> simp_all

/-- `TransferToBank` gives the same outcome when the status codes of the responses are
replaced. -/
theorem transferToBank_mapStatus {κ : Type} (L : Lib κ) (g : Int → Int) (c : chapa)
    (request : BankTransfer) :
    c.TransferToBank (L.mapStatus g) request = c.TransferToBank L request := by
  unfold chapa.TransferToBank
  simp only [Lib.mapStatus, NewRequest]
  cases request.Validate with
  | some e0 => rfl
  | none =>
    cases L.marshalBankTransfer request with
    | error e0 => rfl
    | ok data =>
      cases L.newRequestError MethodPost transferToBankV1APIURL with
      | some e0 => rfl
      | none =>
        simp only []
        split <;> rename_i hd <;> split at hd <;> (try cases hd) <;> simp_all

/-- `GetTransactions` gives the same outcome when the status codes of the responses are
replaced. -/
theorem getTransactions_mapStatus {κ : Type} (L : Lib κ) (g : Int → Int) (c : chapa) :
    c.GetTransactions (L.mapStatus g) = c.GetTransactions L := by
  unfold chapa.GetTransactions
  simp only [Lib.mapStatus, NewRequest]
  cases L.newRequestError MethodGet transactionsV1APIURL with
  | some e0 => rfl
  | none =>
    simp only []
    split <;> rename_i hd <;> split at hd <;> (try cases hd) <;> simp_all

/-- `GetBanks` gives the same outcome when the status codes of the responses are
replaced. -/
theorem getBanks_mapStatus {κ : Type} (L : Lib κ) (g : Int → Int) (c : chapa) :
    c.GetBanks (L.mapStatus g) = c.GetBanks L := by
  unfold chapa.GetBanks
  simp only [Lib.mapStatus, NewRequest]
  cases L.newRequestError MethodGet banksV1APIURL with
  | some e0 => rfl
  | none =>
    simp only []
    split <;> rename_i hd <;> split at hd <;> (try cases hd) <;> simp_all

/-- `BulkTransfer` gives the same outcome when the status codes of the responses are
replaced. -/
theorem bulkTransfer_mapStatus {κ : Type} (L : Lib κ) (g : Int → Int) (c : chapa)
    (request : BulkTransferRequest) :
    c.BulkTransfer (L.mapStatus g) request = c.BulkTransfer L request := by
  unfold chapa.BulkTransfer
  simp only [Lib.mapStatus, NewRequest]
  cases request.Validate with
  | some e0 => rfl
  | none =>
    cases L.marshalBulkTransferRequest request with
    | error e0 => rfl
    | ok data =>
      cases L.newRequestError MethodPost bulkTransferAPIURL with
      | some e0 => rfl
      | none =>
        simp only []
        split <;> rename_i hd <;> split at hd <;> (try cases hd) <;> simp_all

/-! ## The claims about the operations -/

/-- C4: for each of the three validated operations, a request for which
`Validate` returns an error makes the operation return an error with an empty
trace of transport calls; the outcome is the same under every behaviour of the
library calls, so none of them (marshalling, building the request, the
transport) takes part in it. -/
theorem invalid_input_makes_no_call (κ : Type) (L : Lib κ) (c : chapa) :
    (∀ request : PaymentRequest κ, request.Validate ≠ none →
      (c.PaymentRequest L request).calls = [] ∧ (c.PaymentRequest L request).err ≠ none ∧
      ∀ L2 : Lib κ, c.PaymentRequest L2 request = c.PaymentRequest L request) ∧
    (∀ request : BankTransfer, request.Validate ≠ none →
      (c.TransferToBank L request).calls = [] ∧ (c.TransferToBank L request).err ≠ none ∧
      ∀ L2 : Lib κ, c.TransferToBank L2 request = c.TransferToBank L request) ∧
    (∀ request : BulkTransferRequest, request.Validate ≠ none →
      (c.BulkTransfer L request).calls = [] ∧ (c.BulkTransfer L request).err ≠ none ∧
      ∀ L2 : Lib κ, c.BulkTransfer L2 request = c.BulkTransfer L request) := by
  refine ⟨?_, ?_, ?_⟩
  · intro request h
    cases hv : request.Validate with
    | none => exact absurd hv h
    | some e =>
      refine ⟨?_, ?_, fun L2 => ?_⟩
      · simp [paymentRequest_invalid L c request e hv]
      · simp [paymentRequest_invalid L c request e hv]
      · rw [paymentRequest_invalid L c request e hv, paymentRequest_invalid L2 c request e hv]
  · intro request h
    cases hv : request.Validate with
    | none => exact absurd hv h
    | some e =>
      refine ⟨?_, ?_, fun L2 => ?_⟩
      · simp [transferToBank_invalid L c request e hv]
      · simp [transferToBank_invalid L c request e hv]
      · rw [transferToBank_invalid L c request e hv, transferToBank_invalid L2 c request e hv]
  · intro request h
    cases hv : request.Validate with
    | none => exact absurd hv h
    | some e =>
      refine ⟨?_, ?_, fun L2 => ?_⟩
      · simp [bulkTransfer_invalid L c request e hv]
      · simp [bulkTransfer_invalid L c request e hv]
      · rw [bulkTransfer_invalid L c request e hv, bulkTransfer_invalid L2 c request e hv]

/-- An instance of C4: a payment without a currency, a transfer of amount zero
and a bulk transfer with an empty list reach no transport, whereas the
complete payment request reaches it once. -/
theorem invalid_input_makes_no_call_witness :
    (chapa.sample.PaymentRequest Lib.allOk PaymentRequest.noCurrency).calls = [] ∧
    (chapa.sample.TransferToBank Lib.allOk BankTransfer.zeroAmount).calls = [] ∧
    (chapa.sample.BulkTransfer Lib.allOk BulkTransferRequest.emptyData).calls = [] ∧
    (chapa.sample.PaymentRequest Lib.allOk PaymentRequest.sample).calls.length = 1 := by
  have h := invalid_input_makes_no_call Unit Lib.allOk chapa.sample
  exact ⟨(h.1 PaymentRequest.noCurrency (by decide)).1,
    (h.2.1 BankTransfer.zeroAmount (by decide)).1,
    (h.2.2 BulkTransferRequest.emptyData (by decide)).1, by decide⟩

/-- C5: for each of the six operations, on an input that passes validation and
for which the request is built (marshalling and `http.NewRequest` succeed),
the operation hands exactly one request to the transport, and: if the
transport returns the error `e` for it, the operation returns nil and `e`; if
the transport returns a response whose body is read and the decoder returns
the error `e`, the operation returns nil and `e`. -/
theorem transport_and_decode_errors_returned (κ : Type) (L : Lib κ) (c : chapa)
    (pr : PaymentRequest κ) (prData : Bytes) (txnRef : String)
    (bt : BankTransfer) (btData : Bytes) (bulk : BulkTransferRequest) (bulkData : Bytes) :
    (pr.Validate = none →
      L.marshalPaymentRequest pr = .ok prData →
      L.newRequestError MethodPost acceptPaymentV1APIURL = none →
      (c.PaymentRequest L pr).calls =
        [sentRequest c MethodPost acceptPaymentV1APIURL (some prData) true] ∧
      (∀ e, L.Do c.client
          (sentRequest c MethodPost acceptPaymentV1APIURL (some prData) true) = .error e →
        (c.PaymentRequest L pr).resp = none ∧ (c.PaymentRequest L pr).err = some e) ∧
      (∀ resp body e, L.Do c.client
          (sentRequest c MethodPost acceptPaymentV1APIURL (some prData) true) = .ok resp →
        resp.Body = .ok body → L.unmarshalPaymentResponse body = .error e →
        (c.PaymentRequest L pr).resp = none ∧ (c.PaymentRequest L pr).err = some e)) ∧
    (L.newRequestError MethodGet (verifyPaymentV1APIURL txnRef) = none →
      (c.Verify L txnRef).calls =
        [sentRequest c MethodGet (verifyPaymentV1APIURL txnRef) none true] ∧
      (∀ e, L.Do c.client
          (sentRequest c MethodGet (verifyPaymentV1APIURL txnRef) none true) = .error e →
        (c.Verify L txnRef).resp = none ∧ (c.Verify L txnRef).err = some e) ∧
      (∀ resp body e, L.Do c.client
          (sentRequest c MethodGet (verifyPaymentV1APIURL txnRef) none true) = .ok resp →
        resp.Body = .ok body → L.unmarshalVerifyResponse body = .error e →
        (c.Verify L txnRef).resp = none ∧ (c.Verify L txnRef).err = some e)) ∧
    (bt.Validate = none →
      L.marshalBankTransfer bt = .ok btData →
      L.newRequestError MethodPost transferToBankV1APIURL = none →
      (c.TransferToBank L bt).calls =
        [sentRequest c MethodPost transferToBankV1APIURL (some btData) true] ∧
      (∀ e, L.Do c.client
          (sentRequest c MethodPost transferToBankV1APIURL (some btData) true) = .error e →
        (c.TransferToBank L bt).resp = none ∧ (c.TransferToBank L bt).err = some e) ∧
      (∀ resp body e, L.Do c.client
          (sentRequest c MethodPost transferToBankV1APIURL (some btData) true) = .ok resp →
        resp.Body = .ok body → L.unmarshalBankTransferResponse body = .error e →
        (c.TransferToBank L bt).resp = none ∧ (c.TransferToBank L bt).err = some e)) ∧
    (L.newRequestError MethodGet transactionsV1APIURL = none →
      (c.GetTransactions L).calls = [sentRequest c MethodGet transactionsV1APIURL none false] ∧
      (∀ e, L.Do c.client (sentRequest c MethodGet transactionsV1APIURL none false) = .error e →
        (c.GetTransactions L).resp = none ∧ (c.GetTransactions L).err = some e) ∧
      (∀ resp body e, L.Do c.client
          (sentRequest c MethodGet transactionsV1APIURL none false) = .ok resp →
        resp.Body = .ok body → L.unmarshalTransactionsResponse body = .error e →
        (c.GetTransactions L).resp = none ∧ (c.GetTransactions L).err = some e)) ∧
    (L.newRequestError MethodGet banksV1APIURL = none →
      (c.GetBanks L).calls = [sentRequest c MethodGet banksV1APIURL none false] ∧
      (∀ e, L.Do c.client (sentRequest c MethodGet banksV1APIURL none false) = .error e →
        (c.GetBanks L).resp = none ∧ (c.GetBanks L).err = some e) ∧
      (∀ resp body e, L.Do c.client (sentRequest c MethodGet banksV1APIURL none false) = .ok resp →
        resp.Body = .ok body → L.unmarshalBanksResponse body = .error e →
        (c.GetBanks L).resp = none ∧ (c.GetBanks L).err = some e)) ∧
    (bulk.Validate = none →
      L.marshalBulkTransferRequest bulk = .ok bulkData →
      L.newRequestError MethodPost bulkTransferAPIURL = none →
      (c.BulkTransfer L bulk).calls =
        [sentRequest c MethodPost bulkTransferAPIURL (some bulkData) true] ∧
      (∀ e, L.Do c.client
          (sentRequest c MethodPost bulkTransferAPIURL (some bulkData) true) = .error e →
        (c.BulkTransfer L bulk).resp = none ∧ (c.BulkTransfer L bulk).err = some e) ∧
      (∀ resp body e, L.Do c.client
          (sentRequest c MethodPost bulkTransferAPIURL (some bulkData) true) = .ok resp →
        resp.Body = .ok body → L.unmarshalBulkTransferResponse body = .error e →
        (c.BulkTransfer L bulk).resp = none ∧ (c.BulkTransfer L bulk).err = some e)) := by
  refine ⟨?_, ?_, ?_, ?_, ?_, ?_⟩
  · intro hv hm hn
    have hc := paymentRequest_calls L c pr prData hv hm hn
    have hs := paymentRequest_sent L c pr _ (by rw [hc]; exact List.mem_singleton.2 rfl)
    exact ⟨hc, hs.2.2.1, hs.2.2.2.1⟩
  · intro hn
    have hc := verify_calls L c txnRef hn
    have hs := verify_sent L c txnRef _ (by rw [hc]; exact List.mem_singleton.2 rfl)
    exact ⟨hc, hs.2.2.1, hs.2.2.2.1⟩
  · intro hv hm hn
    have hc := transferToBank_calls L c bt btData hv hm hn
    have hs := transferToBank_sent L c bt _ (by rw [hc]; exact List.mem_singleton.2 rfl)
    exact ⟨hc, hs.2.2.1, hs.2.2.2.1⟩
  · intro hn
    have hc := getTransactions_calls L c hn
    have hs := getTransactions_sent L c _ (by rw [hc]; exact List.mem_singleton.2 rfl)
    exact ⟨hc, hs.2.2.1, hs.2.2.2.1⟩
  · intro hn
    have hc := getBanks_calls L c hn
    have hs := getBanks_sent L c _ (by rw [hc]; exact List.mem_singleton.2 rfl)
    exact ⟨hc, hs.2.2.1, hs.2.2.2.1⟩
  · intro hv hm hn
    have hc := bulkTransfer_calls L c bulk bulkData hv hm hn
    have hs := bulkTransfer_sent L c bulk _ (by rw [hc]; exact List.mem_singleton.2 rfl)
    exact ⟨hc, hs.2.2.1, hs.2.2.2.1⟩

/-- An instance of C5 for all six operations: with a transport that refuses
the connection each operation returns nil and that error, and with a decoder
that rejects the body each returns nil and the error of the decoder. -/
theorem transport_and_decode_errors_returned_witness :
    ((chapa.sample.PaymentRequest Lib.transportDown PaymentRequest.sample).resp = none ∧
      (chapa.sample.PaymentRequest Lib.transportDown PaymentRequest.sample).err =
        some (.external "connection refused")) ∧
    ((chapa.sample.Verify Lib.transportDown "tx-1").resp = none ∧
      (chapa.sample.Verify Lib.transportDown "tx-1").err = some (.external "connection refused")) ∧
    ((chapa.sample.TransferToBank Lib.transportDown BankTransfer.sample).resp = none ∧
      (chapa.sample.TransferToBank Lib.transportDown BankTransfer.sample).err =
        some (.external "connection refused")) ∧
    ((chapa.sample.GetTransactions Lib.transportDown).resp = none ∧
      (chapa.sample.GetTransactions Lib.transportDown).err =
        some (.external "connection refused")) ∧
    ((chapa.sample.GetBanks Lib.transportDown).resp = none ∧
      (chapa.sample.GetBanks Lib.transportDown).err = some (.external "connection refused")) ∧
    ((chapa.sample.BulkTransfer Lib.transportDown BulkTransferRequest.sample).resp = none ∧
      (chapa.sample.BulkTransfer Lib.transportDown BulkTransferRequest.sample).err =
        some (.external "connection refused")) ∧
    ((chapa.sample.PaymentRequest Lib.malformedBody PaymentRequest.sample).resp = none ∧
      (chapa.sample.PaymentRequest Lib.malformedBody PaymentRequest.sample).err =
        some (.external "unexpected end of JSON input")) ∧
    ((chapa.sample.Verify Lib.malformedBody "tx-1").resp = none ∧
      (chapa.sample.Verify Lib.malformedBody "tx-1").err =
        some (.external "unexpected end of JSON input")) ∧
    ((chapa.sample.TransferToBank Lib.malformedBody BankTransfer.sample).resp = none ∧
      (chapa.sample.TransferToBank Lib.malformedBody BankTransfer.sample).err =
        some (.external "unexpected end of JSON input")) ∧
    ((chapa.sample.GetTransactions Lib.malformedBody).resp = none ∧
      (chapa.sample.GetTransactions Lib.malformedBody).err =
        some (.external "unexpected end of JSON input")) ∧
    ((chapa.sample.GetBanks Lib.malformedBody).resp = none ∧
      (chapa.sample.GetBanks Lib.malformedBody).err =
        some (.external "unexpected end of JSON input")) ∧
    ((chapa.sample.BulkTransfer Lib.malformedBody BulkTransferRequest.sample).resp = none ∧
      (chapa.sample.BulkTransfer Lib.malformedBody BulkTransferRequest.sample).err =
        some (.external "unexpected end of JSON input")) := by
  have h1 := transport_and_decode_errors_returned Unit Lib.transportDown chapa.sample
    PaymentRequest.sample [] "tx-1" BankTransfer.sample [] BulkTransferRequest.sample []
  have h2 := transport_and_decode_errors_returned Unit Lib.malformedBody chapa.sample
    PaymentRequest.sample [] "tx-1" BankTransfer.sample [] BulkTransferRequest.sample []
  obtain ⟨a1, a2, a3, a4, a5, a6⟩ := h1
  obtain ⟨b1, b2, b3, b4, b5, b6⟩ := h2
  refine ⟨?_, ?_, ?_, ?_, ?_, ?_, ?_, ?_, ?_, ?_, ?_, ?_⟩
  · exact (a1 (by decide) rfl rfl).2.1 _ rfl
  · exact (a2 rfl).2.1 _ rfl
  · exact (a3 (by decide) rfl rfl).2.1 _ rfl
  · exact (a4 rfl).2.1 _ rfl
  · exact (a5 rfl).2.1 _ rfl
  · exact (a6 (by decide) rfl rfl).2.1 _ rfl
  · exact (b1 (by decide) rfl rfl).2.2 _ [] _ rfl rfl rfl
  · exact (b2 rfl).2.2 _ [] _ rfl rfl rfl
  · exact (b3 (by decide) rfl rfl).2.2 _ [] _ rfl rfl rfl
  · exact (b4 rfl).2.2 _ [] _ rfl rfl rfl
  · exact (b5 rfl).2.2 _ [] _ rfl rfl rfl
  · exact (b6 (by decide) rfl rfl).2.2 _ [] _ rfl rfl rfl

/-- C6: for every API key `k` and each of the six operations of a client made
by `New k t`: on an input that passes validation and for which the request is
built, the operation hands exactly one request to the transport, and that
request has the header `Authorization` equal to `Bearer ` followed by `k` and
the header `Content-Type` equal to `application/json`; and no operation hands
over, on any input, a request without these two headers. -/
theorem bearer_and_content_type_headers (κ : Type) (L : Lib κ) (k : String) (t : Int64)
    (pr : PaymentRequest κ) (prData : Bytes) (txnRef : String)
    (bt : BankTransfer) (btData : Bytes) (bulk : BulkTransferRequest) (bulkData : Bytes) :
    (pr.Validate = none →
      L.marshalPaymentRequest pr = .ok prData →
      L.newRequestError MethodPost acceptPaymentV1APIURL = none →
      ((New k t).PaymentRequest L pr).calls =
        [sentRequest (New k t) MethodPost acceptPaymentV1APIURL (some prData) true] ∧
      (sentRequest (New k t) MethodPost acceptPaymentV1APIURL (some prData) true).Header.Get "Authorization" =
        "Bearer " ++ k ∧
      (sentRequest (New k t) MethodPost acceptPaymentV1APIURL (some prData) true).Header.Get "Content-Type" =
        "application/json") ∧
    (L.newRequestError MethodGet (verifyPaymentV1APIURL txnRef) = none →
      ((New k t).Verify L txnRef).calls =
        [sentRequest (New k t) MethodGet (verifyPaymentV1APIURL txnRef) none true] ∧
      (sentRequest (New k t) MethodGet (verifyPaymentV1APIURL txnRef) none true).Header.Get "Authorization" =
        "Bearer " ++ k ∧
      (sentRequest (New k t) MethodGet (verifyPaymentV1APIURL txnRef) none true).Header.Get "Content-Type" =
        "application/json") ∧
    (bt.Validate = none →
      L.marshalBankTransfer bt = .ok btData →
      L.newRequestError MethodPost transferToBankV1APIURL = none →
      ((New k t).TransferToBank L bt).calls =
        [sentRequest (New k t) MethodPost transferToBankV1APIURL (some btData) true] ∧
      (sentRequest (New k t) MethodPost transferToBankV1APIURL (some btData) true).Header.Get "Authorization" =
        "Bearer " ++ k ∧
      (sentRequest (New k t) MethodPost transferToBankV1APIURL (some btData) true).Header.Get "Content-Type" =
        "application/json") ∧
    (L.newRequestError MethodGet transactionsV1APIURL = none →
      ((New k t).GetTransactions L).calls =
        [sentRequest (New k t) MethodGet transactionsV1APIURL none false] ∧
      (sentRequest (New k t) MethodGet transactionsV1APIURL none false).Header.Get "Authorization" =
        "Bearer " ++ k ∧
      (sentRequest (New k t) MethodGet transactionsV1APIURL none false).Header.Get "Content-Type" =
        "application/json") ∧
    (L.newRequestError MethodGet banksV1APIURL = none →
      ((New k t).GetBanks L).calls = [sentRequest (New k t) MethodGet banksV1APIURL none false] ∧
      (sentRequest (New k t) MethodGet banksV1APIURL none false).Header.Get "Authorization" =
        "Bearer " ++ k ∧
      (sentRequest (New k t) MethodGet banksV1APIURL none false).Header.Get "Content-Type" =
        "application/json") ∧
    (bulk.Validate = none →
      L.marshalBulkTransferRequest bulk = .ok bulkData →
      L.newRequestError MethodPost bulkTransferAPIURL = none →
      ((New k t).BulkTransfer L bulk).calls =
        [sentRequest (New k t) MethodPost bulkTransferAPIURL (some bulkData) true] ∧
      (sentRequest (New k t) MethodPost bulkTransferAPIURL (some bulkData) true).Header.Get "Authorization" =
        "Bearer " ++ k ∧
      (sentRequest (New k t) MethodPost bulkTransferAPIURL (some bulkData) true).Header.Get "Content-Type" =
        "application/json") ∧
    (∀ req : Request,
      (req ∈ ((New k t).PaymentRequest L pr).calls ∨
        req ∈ ((New k t).Verify L txnRef).calls ∨
        req ∈ ((New k t).TransferToBank L bt).calls ∨
        req ∈ ((New k t).GetTransactions L).calls ∨
        req ∈ ((New k t).GetBanks L).calls ∨
        req ∈ ((New k t).BulkTransfer L bulk).calls) →
      req.Header.Get "Authorization" = "Bearer " ++ k ∧
      req.Header.Get "Content-Type" = "application/json") := by
  have hget : ∀ (method url : String) (body : Option Bytes) (close : Bool),
      (sentRequest (New k t) method url body close).Header.Get "Authorization" =
        "Bearer " ++ k ∧
      (sentRequest (New k t) method url body close).Header.Get "Content-Type" =
        "application/json" := by
    intro method url body close
    have h1 : CanonicalMIMEHeaderKey "Authorization" = "Authorization" := by decide
    have h2 : CanonicalMIMEHeaderKey "Content-Type" = "Content-Type" := by decide
    have h3 : ("Authorization" == "Content-Type") = false := by decide
    simp [sentRequest, Header.Get, h1, h2, h3, List.find?, New]
  refine ⟨?_, ?_, ?_, ?_, ?_, ?_, ?_⟩
  · intro hv hm hn
    exact ⟨paymentRequest_calls L (New k t) pr prData hv hm hn, hget _ _ _ _⟩
  · intro hn
    exact ⟨verify_calls L (New k t) txnRef hn, hget _ _ _ _⟩
  · intro hv hm hn
    exact ⟨transferToBank_calls L (New k t) bt btData hv hm hn, hget _ _ _ _⟩
  · intro hn
    exact ⟨getTransactions_calls L (New k t) hn, hget _ _ _ _⟩
  · intro hn
    exact ⟨getBanks_calls L (New k t) hn, hget _ _ _ _⟩
  · intro hv hm hn
    exact ⟨bulkTransfer_calls L (New k t) bulk bulkData hv hm hn, hget _ _ _ _⟩
  · rintro req (h | h | h | h | h | h)
    · exact ⟨(paymentRequest_sent L (New k t) pr req h).1, (paymentRequest_sent L (New k t) pr req h).2.1⟩
    · exact ⟨(verify_sent L (New k t) txnRef req h).1, (verify_sent L (New k t) txnRef req h).2.1⟩
    · exact ⟨(transferToBank_sent L (New k t) bt req h).1, (transferToBank_sent L (New k t) bt req h).2.1⟩
    · exact ⟨(getTransactions_sent L (New k t) req h).1, (getTransactions_sent L (New k t) req h).2.1⟩
    · exact ⟨(getBanks_sent L (New k t) req h).1, (getBanks_sent L (New k t) req h).2.1⟩
    · exact ⟨(bulkTransfer_sent L (New k t) bulk req h).1, (bulkTransfer_sent L (New k t) bulk req h).2.1⟩

/-- An instance of C6 for all six operations: the client made with the key
`secret-key` hands over one request each, with `Bearer secret-key`. -/
theorem bearer_and_content_type_headers_witness :
    (∃ req, (chapa.sample.PaymentRequest Lib.allOk PaymentRequest.sample).calls = [req] ∧
      req.Header.Get "Authorization" = "Bearer secret-key" ∧
      req.Header.Get "Content-Type" = "application/json") ∧
    (∃ req, (chapa.sample.Verify Lib.allOk "tx-1").calls = [req] ∧
      req.Header.Get "Authorization" = "Bearer secret-key" ∧
      req.Header.Get "Content-Type" = "application/json") ∧
    (∃ req, (chapa.sample.TransferToBank Lib.allOk BankTransfer.sample).calls = [req] ∧
      req.Header.Get "Authorization" = "Bearer secret-key" ∧
      req.Header.Get "Content-Type" = "application/json") ∧
    (∃ req, (chapa.sample.GetTransactions Lib.allOk).calls = [req] ∧
      req.Header.Get "Authorization" = "Bearer secret-key" ∧
      req.Header.Get "Content-Type" = "application/json") ∧
    (∃ req, (chapa.sample.GetBanks Lib.allOk).calls = [req] ∧
      req.Header.Get "Authorization" = "Bearer secret-key" ∧
      req.Header.Get "Content-Type" = "application/json") ∧
    (∃ req, (chapa.sample.BulkTransfer Lib.allOk BulkTransferRequest.sample).calls = [req] ∧
      req.Header.Get "Authorization" = "Bearer secret-key" ∧
      req.Header.Get "Content-Type" = "application/json") := by
  obtain ⟨a1, a2, a3, a4, a5, a6, _⟩ := bearer_and_content_type_headers Unit Lib.allOk
    "secret-key" ⟨5000000000, by norm_num⟩ PaymentRequest.sample [] "tx-1" BankTransfer.sample []
    BulkTransferRequest.sample []
  exact ⟨⟨_, a1 (by decide) rfl rfl⟩, ⟨_, a2 rfl⟩, ⟨_, a3 (by decide) rfl rfl⟩, ⟨_, a4 rfl⟩,
    ⟨_, a5 rfl⟩, ⟨_, a6 (by decide) rfl rfl⟩⟩

/-- C8: `New k t` holds exactly `k` as its key and a timeout of exactly `t`
nanoseconds, with no scaling to seconds or milliseconds; a client is
determined by these two values, and each of the six operations leaves the
client as it was. -/
theorem new_holds_key_and_timeout (κ : Type) (L : Lib κ) (k : String) (t : Int64)
    (pr : PaymentRequest κ) (txnRef : String) (bt : BankTransfer) (bulk : BulkTransferRequest) :
    (New k t).apiKey = k ∧
    (New k t).client.Timeout.nanoseconds = t ∧
    (New k t).client.Timeout.nanoseconds.val = t.val * Nanosecond ∧
    (t.val ≠ 0 → (New k t).client.Timeout.nanoseconds.val ≠ t.val * Second ∧
      (New k t).client.Timeout.nanoseconds.val ≠ t.val * Millisecond) ∧
    (∀ c : chapa, c.apiKey = k → c.client.Timeout.nanoseconds = t → c = New k t) ∧
    ((New k t).PaymentRequest L pr).self = New k t ∧
    ((New k t).Verify L txnRef).self = New k t ∧
    ((New k t).TransferToBank L bt).self = New k t ∧
    ((New k t).GetTransactions L).self = New k t ∧
    ((New k t).GetBanks L).self = New k t ∧
    ((New k t).BulkTransfer L bulk).self = New k t := by
  refine ⟨rfl, rfl, by simp [New, Nanosecond], ?_, ?_, ?_, ?_, ?_, ?_, ?_, ?_⟩
  · intro ht
    simp only [New, Second, Millisecond]
    constructor <;> intro h <;> omega
  · rintro ⟨key, ⟨⟨ns⟩⟩⟩ h1 h2
    simp only at h1 h2
    subst h1 h2
    rfl
  · unfold chapa.PaymentRequest
    repeat' split
    all_goals first | rfl | (dsimp only; repeat' split)
    all_goals rfl
  · unfold chapa.Verify
    repeat' split
    all_goals first | rfl | (dsimp only; repeat' split)
    all_goals rfl
  · unfold chapa.TransferToBank
    repeat' split
    all_goals first | rfl | (dsimp only; repeat' split)
    all_goals rfl
  · unfold chapa.GetTransactions
    repeat' split
    all_goals first | rfl | (dsimp only; repeat' split)
    all_goals rfl
  · unfold chapa.GetBanks
    repeat' split
    all_goals first | rfl | (dsimp only; repeat' split)
    all_goals rfl
  · unfold chapa.BulkTransfer
    repeat' split
    all_goals first | rfl | (dsimp only; repeat' split)
    all_goals rfl

/-- An instance of C8: a timeout argument of 30 gives a timeout of 30
nanoseconds, which is not 30 seconds. -/
theorem new_holds_key_and_timeout_witness :
    (New "secret-key" ⟨30, by norm_num⟩).client.Timeout.nanoseconds.val = 30 ∧
    (New "secret-key" ⟨30, by norm_num⟩).client.Timeout.nanoseconds.val ≠ 30 * Second := by
  have h := new_holds_key_and_timeout Unit Lib.allOk "secret-key" ⟨30, by norm_num⟩
    PaymentRequest.sample "tx-1" BankTransfer.sample BulkTransferRequest.sample
  exact ⟨by simpa [Nanosecond] using h.2.2.1, (h.2.2.2.1 (by decide)).1⟩

/-- C9: for each of the six operations, on an input that passes validation and
for which the request is built, the operation hands one request to the
transport, and a response of any status code whose body is read and decodes to
`r` makes the operation return `r` with a nil error; and replacing the status
codes of the responses by any others leaves the outcome of the operation
unchanged. -/
theorem result_independent_of_status_code (κ : Type) (L : Lib κ) (c : chapa)
    (pr : PaymentRequest κ) (prData : Bytes) (txnRef : String)
    (bt : BankTransfer) (btData : Bytes) (bulk : BulkTransferRequest) (bulkData : Bytes)
    (g : Int → Int) :
    ((pr.Validate = none →
       L.marshalPaymentRequest pr = .ok prData →
       L.newRequestError MethodPost acceptPaymentV1APIURL = none →
      (c.PaymentRequest L pr).calls =
        [sentRequest c MethodPost acceptPaymentV1APIURL (some prData) true] ∧
      ∀ resp body r, L.Do c.client
          (sentRequest c MethodPost acceptPaymentV1APIURL (some prData) true) = .ok resp →
        resp.Body = .ok body → L.unmarshalPaymentResponse body = .ok r →
        (c.PaymentRequest L pr).resp = some r ∧ (c.PaymentRequest L pr).err = none) ∧
      c.PaymentRequest (L.mapStatus g) pr = c.PaymentRequest L pr) ∧
    ((L.newRequestError MethodGet (verifyPaymentV1APIURL txnRef) = none →
      (c.Verify L txnRef).calls =
        [sentRequest c MethodGet (verifyPaymentV1APIURL txnRef) none true] ∧
      ∀ resp body r, L.Do c.client
          (sentRequest c MethodGet (verifyPaymentV1APIURL txnRef) none true) = .ok resp →
        resp.Body = .ok body → L.unmarshalVerifyResponse body = .ok r →
        (c.Verify L txnRef).resp = some r ∧ (c.Verify L txnRef).err = none) ∧
      c.Verify (L.mapStatus g) txnRef = c.Verify L txnRef) ∧
    ((bt.Validate = none →
       L.marshalBankTransfer bt = .ok btData →
       L.newRequestError MethodPost transferToBankV1APIURL = none →
      (c.TransferToBank L bt).calls =
        [sentRequest c MethodPost transferToBankV1APIURL (some btData) true] ∧
      ∀ resp body r, L.Do c.client
          (sentRequest c MethodPost transferToBankV1APIURL (some btData) true) = .ok resp →
        resp.Body = .ok body → L.unmarshalBankTransferResponse body = .ok r →
        (c.TransferToBank L bt).resp = some r ∧ (c.TransferToBank L bt).err = none) ∧
      c.TransferToBank (L.mapStatus g) bt = c.TransferToBank L bt) ∧
    ((L.newRequestError MethodGet transactionsV1APIURL = none →
      (c.GetTransactions L).calls = [sentRequest c MethodGet transactionsV1APIURL none false] ∧
      ∀ resp body r, L.Do c.client
          (sentRequest c MethodGet transactionsV1APIURL none false) = .ok resp →
        resp.Body = .ok body → L.unmarshalTransactionsResponse body = .ok r →
        (c.GetTransactions L).resp = some r ∧ (c.GetTransactions L).err = none) ∧
      c.GetTransactions (L.mapStatus g) = c.GetTransactions L) ∧
    ((L.newRequestError MethodGet banksV1APIURL = none →
      (c.GetBanks L).calls = [sentRequest c MethodGet banksV1APIURL none false] ∧
      ∀ resp body r, L.Do c.client (sentRequest c MethodGet banksV1APIURL none false) = .ok resp →
        resp.Body = .ok body → L.unmarshalBanksResponse body = .ok r →
        (c.GetBanks L).resp = some r ∧ (c.GetBanks L).err = none) ∧
      c.GetBanks (L.mapStatus g) = c.GetBanks L) ∧
    ((bulk.Validate = none →
       L.marshalBulkTransferRequest bulk = .ok bulkData →
       L.newRequestError MethodPost bulkTransferAPIURL = none →
      (c.BulkTransfer L bulk).calls =
        [sentRequest c MethodPost bulkTransferAPIURL (some bulkData) true] ∧
      ∀ resp body r, L.Do c.client
          (sentRequest c MethodPost bulkTransferAPIURL (some bulkData) true) = .ok resp →
        resp.Body = .ok body → L.unmarshalBulkTransferResponse body = .ok r →
        (c.BulkTransfer L bulk).resp = some r ∧ (c.BulkTransfer L bulk).err = none) ∧
      c.BulkTransfer (L.mapStatus g) bulk = c.BulkTransfer L bulk) := by
  refine ⟨⟨?_, ?_⟩, ⟨?_, ?_⟩, ⟨?_, ?_⟩, ⟨?_, ?_⟩, ⟨?_, ?_⟩, ⟨?_, ?_⟩⟩
  · intro hv hm hn
    have hc := paymentRequest_calls L c pr prData hv hm hn
    have hs := paymentRequest_sent L c pr _ (by rw [hc]; exact List.mem_singleton.2 rfl)
    exact ⟨hc, hs.2.2.2.2⟩
  · exact paymentRequest_mapStatus L g c pr
  · intro hn
    have hc := verify_calls L c txnRef hn
    have hs := verify_sent L c txnRef _ (by rw [hc]; exact List.mem_singleton.2 rfl)
    exact ⟨hc, hs.2.2.2.2⟩
  · exact verify_mapStatus L g c txnRef
  · intro hv hm hn
    have hc := transferToBank_calls L c bt btData hv hm hn
    have hs := transferToBank_sent L c bt _ (by rw [hc]; exact List.mem_singleton.2 rfl)
    exact ⟨hc, hs.2.2.2.2⟩
  · exact transferToBank_mapStatus L g c bt
  · intro hn
    have hc := getTransactions_calls L c hn
    have hs := getTransactions_sent L c _ (by rw [hc]; exact List.mem_singleton.2 rfl)
    exact ⟨hc, hs.2.2.2.2⟩
  · exact getTransactions_mapStatus L g c
  · intro hn
    have hc := getBanks_calls L c hn
    have hs := getBanks_sent L c _ (by rw [hc]; exact List.mem_singleton.2 rfl)
    exact ⟨hc, hs.2.2.2.2⟩
  · exact getBanks_mapStatus L g c
  · intro hv hm hn
    have hc := bulkTransfer_calls L c bulk bulkData hv hm hn
    have hs := bulkTransfer_sent L c bulk _ (by rw [hc]; exact List.mem_singleton.2 rfl)
    exact ⟨hc, hs.2.2.2.2⟩
  · exact bulkTransfer_mapStatus L g c bulk

/-- An instance of C9 for all six operations: when every response has status
500 instead of 200 each operation still returns the decoded response and a nil
error. -/
theorem result_independent_of_status_code_witness :
    ((chapa.sample.PaymentRequest (Lib.allOk.mapStatus (fun _ => 500)) PaymentRequest.sample).resp =
        some PaymentResponse.zero ∧
      (chapa.sample.PaymentRequest (Lib.allOk.mapStatus (fun _ => 500)) PaymentRequest.sample).err =
        none) ∧
    ((chapa.sample.Verify (Lib.allOk.mapStatus (fun _ => 500)) "tx-1").resp =
        some VerifyResponse.zero ∧
      (chapa.sample.Verify (Lib.allOk.mapStatus (fun _ => 500)) "tx-1").err = none) ∧
    ((chapa.sample.TransferToBank (Lib.allOk.mapStatus (fun _ => 500)) BankTransfer.sample).resp =
        some BankTransferResponse.zero ∧
      (chapa.sample.TransferToBank (Lib.allOk.mapStatus (fun _ => 500)) BankTransfer.sample).err =
        none) ∧
    ((chapa.sample.GetTransactions (Lib.allOk.mapStatus (fun _ => 500))).resp =
        some TransactionsResponse.zero ∧
      (chapa.sample.GetTransactions (Lib.allOk.mapStatus (fun _ => 500))).err = none) ∧
    ((chapa.sample.GetBanks (Lib.allOk.mapStatus (fun _ => 500))).resp =
        some BanksResponse.zero ∧
      (chapa.sample.GetBanks (Lib.allOk.mapStatus (fun _ => 500))).err = none) ∧
    ((chapa.sample.BulkTransfer (Lib.allOk.mapStatus (fun _ => 500)) BulkTransferRequest.sample).resp =
        some BulkTransferResponse.zero ∧
      (chapa.sample.BulkTransfer (Lib.allOk.mapStatus (fun _ => 500)) BulkTransferRequest.sample).err =
        none) := by
  obtain ⟨⟨a1, e1⟩, ⟨a2, e2⟩, ⟨a3, e3⟩, ⟨a4, e4⟩, ⟨a5, e5⟩, ⟨a6, e6⟩⟩ :=
    result_independent_of_status_code Unit Lib.allOk chapa.sample PaymentRequest.sample []
      "tx-1" BankTransfer.sample [] BulkTransferRequest.sample [] (fun _ => 500)
  rw [e1, e2, e3, e4, e5, e6]
  exact ⟨(a1 (by decide) rfl rfl).2 _ [] _ rfl rfl rfl, (a2 rfl).2 _ [] _ rfl rfl rfl,
    (a3 (by decide) rfl rfl).2 _ [] _ rfl rfl rfl, (a4 rfl).2 _ [] _ rfl rfl rfl,
    (a5 rfl).2 _ [] _ rfl rfl rfl, (a6 (by decide) rfl rfl).2 _ [] _ rfl rfl rfl⟩

/-- C10: on a request that fails validation with the error `e`,
`PaymentRequest` returns a zero-valued response that is not nil, whereas
`TransferToBank` and `BulkTransfer` return nil; in all three the returned
error has the text `invalid input ` followed by the text of `e`. -/
theorem validation_failure_result_shapes (κ : Type) (L : Lib κ) (c : chapa) :
    (∀ (request : PaymentRequest κ) (e : GoError), request.Validate = some e →
      (c.PaymentRequest L request).resp = some PaymentResponse.zero ∧
      ∃ err, (c.PaymentRequest L request).err = some err ∧
        err.Error = "invalid input " ++ e.Error) ∧
    (∀ (request : BankTransfer) (e : GoError), request.Validate = some e →
      (c.TransferToBank L request).resp = none ∧
      ∃ err, (c.TransferToBank L request).err = some err ∧
        err.Error = "invalid input " ++ e.Error) ∧
    (∀ (request : BulkTransferRequest) (e : GoError), request.Validate = some e →
      (c.BulkTransfer L request).resp = none ∧
      ∃ err, (c.BulkTransfer L request).err = some err ∧
        err.Error = "invalid input " ++ e.Error) := by
  refine ⟨fun request e h => ?_, fun request e h => ?_, fun request e h => ?_⟩
  · rw [paymentRequest_invalid L c request e h]
    exact ⟨rfl, _, rfl, rfl⟩
  · rw [transferToBank_invalid L c request e h]
    exact ⟨rfl, _, rfl, rfl⟩
  · rw [bulkTransfer_invalid L c request e h]
    exact ⟨rfl, _, rfl, rfl⟩

/-- An instance of C10: a payment without a currency gives the zero response
and the message below; a bulk transfer with an empty list gives nil. -/
theorem validation_failure_result_shapes_witness :
    (chapa.sample.PaymentRequest Lib.allOk PaymentRequest.noCurrency).resp =
      some PaymentResponse.zero ∧
    (chapa.sample.PaymentRequest Lib.allOk PaymentRequest.noCurrency).err =
      some (.errorf "invalid input currency: currency is required.") ∧
    (chapa.sample.BulkTransfer Lib.allOk BulkTransferRequest.emptyData).resp = none := by
  have h := validation_failure_result_shapes Unit Lib.allOk chapa.sample
  have h1 : PaymentRequest.noCurrency.Validate =
      some (.validation [("currency", "currency is required")]) := by decide
  have h2 : BulkTransferRequest.emptyData.Validate =
      some (.validation [("bulk_data", "at least one account is required")]) := by decide
  exact ⟨(h.1 PaymentRequest.noCurrency _ h1).1, by decide,
    (h.2.2 BulkTransferRequest.emptyData _ h2).1⟩

end Chapa
